import Mathlib

/-!
# dj-wishboard: sessions, wishes and the DJ key gate

A shallow embedding of `server.js`.  The two module-level arrays `sessions` and
`wishes` are the state; every request handler is a function from the request
data and the state to a response and the next state.

Modelling conventions

* JavaScript strings are Lean strings (well-formed UTF-16 text).  The text
  fields of a request body or query (`name`, `title`, `artist`, `comment`,
  `sessionId`, `deviceId`, `djKey`) are `Option String`: `none` is an absent
  (`undefined`/`null`) field.  A path parameter is a `String`.
* The fields the handlers coerce (`maxWishesPerGuest`, `requireName`,
  `allowComment`, `active`, `status`) are values of `JsVal`: `undefined`, the
  primitive JSON values, and arrays and plain objects.
* Numbers are `JsNum`: `NaN`, the two infinities and the finite numbers, which
  are taken from `ℚ` (every finite double is a rational; the handlers test and
  compare these numbers, they never compute with them).
* `String.prototype.toLowerCase` and the string case of `Number(...)` are
  language built-ins, passed to the handlers in a `Builtins` record.
  `String.prototype.trim` is defined here (`jsTrim`).
* `Date.now()`, `new Date().toISOString()` and `Math.random()` are inputs of
  the handler that reads them.
* `saveData()` writes the two arrays to `data.json` and catches every error; it
  leaves `sessions` and `wishes` as they are, so it does not appear in the
  handlers below.  The content of `data.json` is a `DataFile`: the records its
  text parses to; `saveData` gives the content it writes and `loadData` reads
  such a content.
-/

namespace Wishboard

/-! ## JavaScript values -/

/-- A JavaScript number: `NaN`, a finite number, `Infinity` or `-Infinity`. -/
inductive JsNum where
  | nan
  | fin (q : ℚ)
  | posInf
  | negInf
  deriving DecidableEq

namespace JsNum

/-- ToBoolean on a number: `NaN` and `0` are falsy. -/
def truthy : JsNum → Bool
  | nan => false
  | fin q => decide (q ≠ 0)
  | posInf => true
  | negInf => true

/-- The comparison `n > 0`. -/
def gtZero : JsNum → Bool
  | nan => false
  | fin q => decide (0 < q)
  | posInf => true
  | negInf => false

/-- The comparison `count >= n` for an array length `count`. -/
def countGe (count : Nat) : JsNum → Bool
  | nan => false
  | fin q => decide (q ≤ (count : ℚ))
  | posInf => false
  | negInf => true

/-- Strict equality `a === b` of two numbers: `NaN` equals nothing. -/
def strictEq : JsNum → JsNum → Bool
  | fin a, fin b => decide (a = b)
  | posInf, posInf => true
  | negInf, negInf => true
  | _, _ => false

end JsNum

/-- A value of a parsed request body, or `undefined` for a missing field.  An
array or a plain object is given by the text its `toString()` returns (`''`
for `[]`, `'5'` for `[5]`, `'[object Object]'` for an object): that text is all
the handlers can observe of it, through `Number(...)`; under `typeof`, `===`
and `includes` it differs from every primitive. -/
inductive JsVal where
  | undefined
  | null
  | bool (b : Bool)
  | num (n : JsNum)
  | str (s : String)
  | object (text : String)
  deriving DecidableEq

/-- The language built-ins the handlers call that are not defined here. -/
structure Builtins where
  /-- The method `s.toLowerCase()`. -/
  toLowerCase : String → String
  /-- The call `Number(s)` on a string `s`. -/
  stringToNumber : String → JsNum

/-- The call `Number(v)`. -/
def jsNumber (js : Builtins) : JsVal → JsNum
  | .undefined => .nan
  | .null => .fin 0
  | .bool true => .fin 1
  | .bool false => .fin 0
  | .num n => n
  | .str s => js.stringToNumber s
  | .object text => js.stringToNumber text

/-- The expression `Number(v) || 0`. -/
def numberOrZero (js : Builtins) (v : JsVal) : JsNum :=
  if (jsNumber js v).truthy then jsNumber js v else .fin 0

/-- ToBoolean on an optional string: absent and `''` are falsy. -/
def truthyStr : Option String → Bool
  | none => false
  | some s => s != ""

/-- The expression `x || ''` on an optional string. -/
def orEmpty : Option String → String
  | none => ""
  | some s => s

/-- ToBoolean on an optional boolean: only `true` is truthy. -/
def truthyFlag : Option Bool → Bool
  | some true => true
  | _ => false

/-- The code points that `String.prototype.trim` strips: WhiteSpace and
LineTerminator of ECMAScript. -/
def isJsWhitespace (c : Char) : Bool :=
  c.toNat = 0x09 || c.toNat = 0x0A || c.toNat = 0x0B || c.toNat = 0x0C ||
  c.toNat = 0x0D || c.toNat = 0x20 || c.toNat = 0xA0 || c.toNat = 0x1680 ||
  (0x2000 ≤ c.toNat && c.toNat ≤ 0x200A) ||
  c.toNat = 0x2028 || c.toNat = 0x2029 || c.toNat = 0x202F ||
  c.toNat = 0x205F || c.toNat = 0x3000 || c.toNat = 0xFEFF

/-- Strip the whitespace at the end of a list of characters. -/
def dropTrailing (l : List Char) : List Char :=
  ((l.reverse).dropWhile isJsWhitespace).reverse

/-- Strip the whitespace at both ends of a list of characters. -/
def trimChars (l : List Char) : List Char :=
  dropTrailing (l.dropWhile isJsWhitespace)

/-- The method `s.trim()`. -/
def jsTrim (s : String) : String :=
  String.mk (trimChars s.data)

/-! ## Data model -/

/-- The `settings` object of a session; a field is `none` when the property is
missing (records written before the field existed). -/
structure Settings where
  maxWishesPerGuest : Option JsNum
  requireName : Option Bool
  allowComment : Option Bool
  deriving DecidableEq

/-- The empty settings object of `session.settings || {}`. -/
def Settings.empty : Settings := ⟨none, none, none⟩

/-- A session record.  `active`, `settings` and `djKey` are `none` when the
property is missing. -/
structure Session where
  id : String
  name : String
  active : Option Bool
  createdAt : String
  settings : Option Settings
  djKey : Option String
  deriving DecidableEq

/-- A wish record.  `deviceId` is `none` for `null`; `name` is `none` when the
property is missing (the quota check reads it as `w.name || ''`). -/
structure Wish where
  id : Int
  sessionId : String
  sessionName : String
  name : Option String
  title : String
  artist : String
  comment : String
  deviceId : Option String
  status : String
  createdAt : String
  deriving DecidableEq

/-- The module state: the arrays `sessions` and `wishes`. -/
structure State where
  sessions : List Session
  wishes : List Wish
  deriving DecidableEq

/-! ## Responses -/

/-- The `message` of an error response. -/
inductive Message where
  /-- The text 'Session-Name ist Pflicht.' -/
  | sessionNameRequired
  /-- The text 'Session nicht gefunden.' -/
  | sessionNotFound
  /-- The text 'Songtitel, Interpret und Session sind Pflicht.' -/
  | missingFields
  /-- The text 'Diese Session ist ungültig oder nicht aktiv.' -/
  | invalidSession
  /-- The text 'In dieser Session ist ein Name Pflicht.' -/
  | nameRequired
  /-- The text 'Du hast das Maximum von N Wünschen für diese Session erreicht.'
  with the limit `N`. -/
  | quotaExceeded (limit : JsNum)
  /-- The text 'Ungültiger Status.' -/
  | invalidStatus
  /-- The text 'Wunsch nicht gefunden.' -/
  | wishNotFound
  /-- The text 'SessionId und djKey sind erforderlich.' -/
  | credentialsRequired
  /-- The text 'Kein Zugriff auf diese Session (DJ-Key ungültig).' -/
  | invalidKey
  deriving DecidableEq

/-- The body of a success response (its `success` flag and `message` text are
left out). -/
inductive Payload where
  | counts (sessionsCount wishesCount : Nat)
  | session (s : Session)
  | sessions (ss : List Session)
  | wish (w : Wish)
  | wishes (ws : List Wish)
  | deleted (removedSession : Session) (removedWishes : Int)
  deriving DecidableEq

/-- What a handler sends: `res.json(...)` or `res.status(code).json(...)` with
`success: false`. -/
inductive Response where
  | ok (body : Payload)
  | fail (status : Nat) (message : Message)
  deriving DecidableEq

/-- The response is an error response. -/
def Response.isFail : Response → Bool
  | .ok _ => false
  | .fail _ _ => true

/-! ## Identifier generation -/

/-- The loop shared by `generateSessionId` and `generateDjKey`: `length` rounds,
round `i` appends `chars.charAt(draw i)`, where `draw i` is the value of
`Math.floor(Math.random() * chars.length)` in that round; `charAt` past the end
is the empty string. -/
def randomString (chars : List Char) (length : Nat) (draw : Nat → Nat) : String :=
  String.mk ((List.range length).filterMap (fun i => chars.get? (draw i)))

/-- The function `generateSessionId` with its default length 6. -/
def generateSessionId (draw : Nat → Nat) : String :=
  randomString "ABCDEFGHIJKLMNOPQRSTUVWXYZ0123456789".data 6 draw

/-- The function `generateDjKey` with its default length 32. -/
def generateDjKey (draw : Nat → Nat) : String :=
  randomString "abcdefghijklmnopqrstuvwxyzABCDEFGHIJKLMNOPQRSTUVWXYZ0123456789".data 32 draw

/-! ## Session handlers -/

/-- The handler `GET /api/test`. -/
def test (st : State) : Response × State :=
  (.ok (.counts st.sessions.length st.wishes.length), st)

/-- The lookup `sessions.find(s => s.id === id)`; the `id` of a request body or
query may be absent. -/
def findSession (st : State) (id : Option String) : Option Session :=
  st.sessions.find? (fun s => some s.id == id)

/-- Replace the first element that satisfies `p` by its image under `f`: the
effect of assigning to a property of the object `find` returned. -/
def updateFirst {α : Type} (p : α → Bool) (f : α → α) : List α → List α
  | [] => []
  | x :: xs => if p x then f x :: xs else x :: updateFirst p f xs

/-- The body of `POST /api/sessions`. -/
structure SessionInput where
  name : Option String
  maxWishesPerGuest : JsVal
  requireName : JsVal
  allowComment : JsVal

/-- The flag coercion of session creation:
`typeof x === 'boolean' ? x : x === 'true' || x === undefined`. -/
def flagOnCreate : JsVal → Bool
  | .bool b => b
  | .str s => s == "true"
  | .undefined => true
  | _ => false

/-- The flag coercion of the settings update:
`typeof x === 'boolean' ? x : x === 'true'`. -/
def flagOnUpdate : JsVal → Bool
  | .bool b => b
  | .str s => s == "true"
  | _ => false

/-- The handler `POST /api/sessions`.  `draw` is the stream of random indices
(six for the id, then thirty-two for the key), `nowIso` the creation time. -/
def createSession (js : Builtins) (draw : Nat → Nat) (nowIso : String)
    (body : SessionInput) (st : State) : Response × State :=
  match body.name with
  | none => (.fail 400 .sessionNameRequired, st)
  | some name =>
    if name == "" || jsTrim name == "" then
      (.fail 400 .sessionNameRequired, st)
    else
      let id := generateSessionId draw
      let settings : Settings :=
        { maxWishesPerGuest := some (numberOrZero js body.maxWishesPerGuest)
          requireName := some (flagOnCreate body.requireName)
          allowComment := some (flagOnCreate body.allowComment) }
      let session : Session :=
        { id := id
          name := jsTrim name
          active := some true
          createdAt := nowIso
          settings := some settings
          djKey := some (generateDjKey (fun i => draw (6 + i))) }
      (.ok (.session session), { st with sessions := st.sessions ++ [session] })

/-- The handler `GET /api/sessions`. -/
def listSessions (st : State) : Response × State :=
  (.ok (.sessions st.sessions), st)

/-- The handler `GET /api/sessions/:id`. -/
def getSession (id : String) (st : State) : Response × State :=
  match findSession st (some id) with
  | none => (.fail 404 .sessionNotFound, st)
  | some session => (.ok (.session session), st)

/-- The body of `POST /api/sessions/:id/settings`. -/
structure SettingsInput where
  maxWishesPerGuest : JsVal
  requireName : JsVal
  allowComment : JsVal

/-- The three guarded assignments of the settings handler, applied to the
settings object `session.settings || {}`. -/
def mergeSettings (js : Builtins) (body : SettingsInput) (old : Option Settings) : Settings :=
  let settings := old.getD Settings.empty
  let settings :=
    if body.maxWishesPerGuest ≠ .undefined then
      { settings with maxWishesPerGuest := some (numberOrZero js body.maxWishesPerGuest) }
    else settings
  let settings :=
    if body.requireName ≠ .undefined then
      { settings with requireName := some (flagOnUpdate body.requireName) }
    else settings
  let settings :=
    if body.allowComment ≠ .undefined then
      { settings with allowComment := some (flagOnUpdate body.allowComment) }
    else settings
  settings

/-- The handler `POST /api/sessions/:id/settings`. -/
def updateSettings (js : Builtins) (id : String) (body : SettingsInput) (st : State) :
    Response × State :=
  match findSession st (some id) with
  | none => (.fail 404 .sessionNotFound, st)
  | some session =>
    let assign := fun (s : Session) => { s with settings := some (mergeSettings js body s.settings) }
    (.ok (.session (assign session)),
      { st with sessions := updateFirst (fun s => s.id == id) assign st.sessions })

/-- The coercion of the `active` input:
`active === true || active === 'true' || active === 1 || active === '1'`. -/
def isActiveInput (active : JsVal) : Bool :=
  decide (active = .bool true) || decide (active = .str "true") ||
  decide (active = .num (.fin 1)) || decide (active = .str "1")

/-- The handler `POST /api/sessions/:id/active`. -/
def setActive (id : String) (active : JsVal) (st : State) : Response × State :=
  match findSession st (some id) with
  | none => (.fail 404 .sessionNotFound, st)
  | some session =>
    let isActive := isActiveInput active
    let assign := fun (s : Session) => { s with active := some isActive }
    (.ok (.session (assign session)),
      { st with sessions := updateFirst (fun s => s.id == id) assign st.sessions })

/-- The handler `DELETE /api/sessions/:id`. -/
def deleteSession (id : String) (st : State) : Response × State :=
  match findSession st (some id) with
  | none => (.fail 404 .sessionNotFound, st)
  | some removed =>
    let sessions := st.sessions.filter (fun s => s.id != id)
    let beforeCount := st.wishes.length
    let wishes := st.wishes.filter (fun w => w.sessionId != id)
    let afterCount := wishes.length
    (.ok (.deleted removed ((beforeCount : Int) - (afterCount : Int))),
      { sessions := sessions, wishes := wishes })

/-! ## Wish handlers -/

/-- The body of `POST /api/wishes`. -/
structure WishInput where
  name : Option String
  title : Option String
  artist : Option String
  comment : Option String
  sessionId : Option String
  deviceId : Option String

/-- The variable `existingCount` of the quota check: the wishes of the session
with the same `deviceId` when one is supplied, else those whose trimmed,
lower-cased name equals the lower-cased `trimmedName`. -/
def existingCount (js : Builtins) (wishes : List Wish) (sessionId : String)
    (deviceId : Option String) (trimmedName : String) : Nat :=
  if truthyStr deviceId then
    (wishes.filter (fun w => w.sessionId == sessionId && w.deviceId == deviceId)).length
  else
    (wishes.filter (fun w => w.sessionId == sessionId &&
      js.toLowerCase (jsTrim (orEmpty w.name)) == js.toLowerCase trimmedName)).length

/-- The quota check: the limit when the check rejects the submission, that is
when `settings.maxWishesPerGuest` is truthy and positive and
`existingCount >= settings.maxWishesPerGuest`. -/
def quotaReached (js : Builtins) (settings : Settings) (wishes : List Wish)
    (sessionId : String) (deviceId : Option String) (trimmedName : String) : Option JsNum :=
  match settings.maxWishesPerGuest with
  | none => none
  | some limit =>
    if limit.truthy && limit.gtZero then
      if limit.countGe (existingCount js wishes sessionId deviceId trimmedName) then some limit
      else none
    else none

/-- The wish object the handler builds. -/
def newWish (now : Int) (nowIso : String) (body : WishInput) (session : Session)
    (trimmedName : String) : Wish :=
  { id := now
    sessionId := session.id
    sessionName := session.name
    name := some (if trimmedName != "" then trimmedName else "Gast")
    title := jsTrim (orEmpty body.title)
    artist := jsTrim (orEmpty body.artist)
    comment := jsTrim (orEmpty body.comment)
    deviceId := if truthyStr body.deviceId then body.deviceId else none
    status := "open"
    createdAt := nowIso }

/-- The handler `POST /api/wishes`.  `now` is `Date.now()`, `nowIso` the
creation time string. -/
def submitWish (js : Builtins) (now : Int) (nowIso : String) (body : WishInput)
    (st : State) : Response × State :=
  if !truthyStr body.title || !truthyStr body.artist || !truthyStr body.sessionId then
    (.fail 400 .missingFields, st)
  else
    match findSession st body.sessionId with
    | none => (.fail 400 .invalidSession, st)
    | some session =>
      if !truthyFlag session.active then
        (.fail 400 .invalidSession, st)
      else
        let settings := session.settings.getD Settings.empty
        if truthyFlag settings.requireName &&
            (!truthyStr body.name || !truthyStr (body.name.map jsTrim)) then
          (.fail 400 .nameRequired, st)
        else
          let trimmedName := jsTrim (orEmpty body.name)
          match quotaReached js settings st.wishes session.id body.deviceId trimmedName with
          | some limit => (.fail 400 (.quotaExceeded limit), st)
          | none =>
            let wish := newWish now nowIso body session trimmedName
            (.ok (.wish wish), { st with wishes := st.wishes ++ [wish] })

/-- The handler `GET /api/wishes`. -/
def listWishes (sessionId : Option String) (st : State) : Response × State :=
  if truthyStr sessionId then
    (.ok (.wishes (st.wishes.filter (fun w => some w.sessionId == sessionId))), st)
  else
    (.ok (.wishes st.wishes), st)

/-- The check `allowedStatuses.includes(status)`: the status string when it is
one of the three allowed ones. -/
def allowedStatus : JsVal → Option String
  | .str s => if ["open", "done", "rejected"].contains s then some s else none
  | _ => none

/-- The handler `POST /api/wishes/:id/status`; `idParam` is `req.params.id`. -/
def adminSetStatus (js : Builtins) (idParam : String) (status : JsVal) (st : State) :
    Response × State :=
  let id := jsNumber js (.str idParam)
  match allowedStatus status with
  | none => (.fail 400 .invalidStatus, st)
  | some status =>
    match st.wishes.find? (fun w => JsNum.strictEq (.fin w.id) id) with
    | none => (.fail 404 .wishNotFound, st)
    | some wish =>
      let assign := fun (w : Wish) => { w with status := status }
      (.ok (.wish (assign wish)),
        { st with wishes := updateFirst (fun w => JsNum.strictEq (.fin w.id) id) assign st.wishes })

/-! ## DJ handlers -/

/-- The function `getSessionByIdAndKey`: the session, or the text of the
`error` property. -/
def getSessionByIdAndKey (st : State) (sessionId djKey : Option String) :
    Except Message Session :=
  match findSession st sessionId with
  | none => .error .sessionNotFound
  | some session =>
    if !truthyStr session.djKey || session.djKey != djKey then .error .invalidKey
    else .ok session

/-- The handler `GET /api/dj/session`. -/
def djGetSession (sessionId djKey : Option String) (st : State) : Response × State :=
  if !truthyStr sessionId || !truthyStr djKey then
    (.fail 400 .credentialsRequired, st)
  else
    match getSessionByIdAndKey st sessionId djKey with
    | .error error => (.fail 403 error, st)
    | .ok session => (.ok (.session session), st)

/-- The handler `GET /api/dj/wishes`. -/
def djListWishes (sessionId djKey : Option String) (st : State) : Response × State :=
  if !truthyStr sessionId || !truthyStr djKey then
    (.fail 400 .credentialsRequired, st)
  else
    match getSessionByIdAndKey st sessionId djKey with
    | .error error => (.fail 403 error, st)
    | .ok session => (.ok (.wishes (st.wishes.filter (fun w => w.sessionId == session.id))), st)

/-- The handler `POST /api/dj/wishes/:id/status`; `idParam` is `req.params.id`. -/
def djSetStatus (js : Builtins) (idParam : String) (status : JsVal)
    (sessionId djKey : Option String) (st : State) : Response × State :=
  let id := jsNumber js (.str idParam)
  match allowedStatus status with
  | none => (.fail 400 .invalidStatus, st)
  | some status =>
    if !truthyStr sessionId || !truthyStr djKey then
      (.fail 400 .credentialsRequired, st)
    else
      match getSessionByIdAndKey st sessionId djKey with
      | .error error => (.fail 403 error, st)
      | .ok session =>
        let found := fun (w : Wish) => JsNum.strictEq (.fin w.id) id && w.sessionId == session.id
        match st.wishes.find? found with
        | none => (.fail 404 .wishNotFound, st)
        | some wish =>
          let assign := fun (w : Wish) => { w with status := status }
          (.ok (.wish (assign wish)), { st with wishes := updateFirst found assign st.wishes })

/-! ## Requests -/

/-- A request to one of the handlers, with the values the handler reads from
the clock and the random generator. -/
inductive Request where
  | test
  | createSession (draw : Nat → Nat) (nowIso : String) (body : SessionInput)
  | listSessions
  | getSession (id : String)
  | updateSettings (id : String) (body : SettingsInput)
  | setActive (id : String) (active : JsVal)
  | deleteSession (id : String)
  | submitWish (now : Int) (nowIso : String) (body : WishInput)
  | listWishes (sessionId : Option String)
  | adminSetStatus (idParam : String) (status : JsVal)
  | djGetSession (sessionId djKey : Option String)
  | djListWishes (sessionId djKey : Option String)
  | djSetStatus (idParam : String) (status : JsVal) (sessionId djKey : Option String)

/-- Serve one request. -/
def handle (js : Builtins) : Request → State → Response × State
  | .test => test
  | .createSession draw nowIso body => createSession js draw nowIso body
  | .listSessions => listSessions
  | .getSession id => getSession id
  | .updateSettings id body => updateSettings js id body
  | .setActive id active => setActive id active
  | .deleteSession id => deleteSession id
  | .submitWish now nowIso body => submitWish js now nowIso body
  | .listWishes sessionId => listWishes sessionId
  | .adminSetStatus idParam status => adminSetStatus js idParam status
  | .djGetSession sessionId djKey => djGetSession sessionId djKey
  | .djListWishes sessionId djKey => djListWishes sessionId djKey
  | .djSetStatus idParam status sessionId djKey => djSetStatus js idParam status sessionId djKey

/-- Serve a sequence of requests in order; the responses come back in the same
order. -/
def handleAll (js : Builtins) : List Request → State → List Response × State
  | [], st => ([], st)
  | r :: rs, st =>
    let (resp, st1) := handle js r st
    let (resps, st2) := handleAll js rs st1
    (resp :: resps, st2)

/-- The value of a list of decimal digits read from the left, `none` when a
character is not a digit. -/
def digitsValue : List Char → Nat → Option Nat
  | [], acc => some acc
  | c :: cs, acc => if c.isDigit then digitsValue cs (10 * acc + (c.toNat - 48)) else none

/-- The built-ins, restricted to the inputs used in the examples of this file:
`toLowerCase` maps `A`..`Z` to `a`..`z` (which is what JavaScript does on ASCII
text), and `Number` reads a string that, trimmed, is empty (`0`) or consists of
decimal digits; on any other string this `Number` is `NaN`. -/
def asciiBuiltins : Builtins :=
  { toLowerCase := fun s => String.mk (s.data.map Char.toLower)
    stringToNumber := fun s =>
      match digitsValue (trimChars s.data) 0 with
      | some n => .fin n
      | none => .nan }

/-! ## Persistence -/

/-- What `loadData` finds at `DATA_FILE`. -/
inductive DataFile where
  /-- The file does not exist: `fs.existsSync` is false. -/
  | missing
  /-- The content, trimmed, is empty. -/
  | blank
  /-- The call `JSON.parse` throws, or reading a property of the parsed value
  does. -/
  | malformed
  /-- The content parses to a value whose properties `sessions` and `wishes`
  are the given arrays of records; `none` stands for a property that is not an
  array. -/
  | snapshot (sessions : Option (List Session)) (wishes : Option (List Wish))
  deriving DecidableEq

/-- A number after `JSON.stringify` and `JSON.parse`: a finite number is read
back as it was, `NaN` and the infinities are written as `null`. -/
def jsonNumber : JsNum → Option JsNum
  | .fin q => some (.fin q)
  | .nan => none
  | .posInf => none
  | .negInf => none

/-- A settings object after `JSON.stringify` and `JSON.parse`. -/
def jsonSettings (settings : Settings) : Settings :=
  { settings with maxWishesPerGuest := settings.maxWishesPerGuest.bind jsonNumber }

/-- A session record after `JSON.stringify` and `JSON.parse`: strings and
booleans are read back as they were, a missing property stays missing. -/
def jsonSession (s : Session) : Session :=
  { s with settings := s.settings.map jsonSettings }

/-- The function `saveData`: the content `JSON.stringify({ sessions, wishes })`
that it hands to `writeFileSync`, given as `JSON.parse` reads it back.  A wish
record holds strings, `null` and an integer only and is read back as it was. -/
def saveData (st : State) : DataFile :=
  .snapshot (some (st.sessions.map jsonSession)) (some st.wishes)

/-- The body of the loop of `loadData` for one session, when `k` keys were
generated before it: the session after the two backfills, the number of keys
generated so far, and whether the session was changed.  The `k`-th key takes
the draws `32 * k`, ..., `32 * k + 31`. -/
def backfillSession (draw : Nat → Nat) (k : Nat) (s : Session) : Session × Nat × Bool :=
  let s1 : Session := if s.active = none then { s with active := some true } else s
  if !truthyStr s1.djKey then
    ({ s1 with djKey := some (generateDjKey (fun i => draw (32 * k + i))) }, k + 1, true)
  else
    (s1, k, decide (s.active = none))

/-- The loop of `loadData` over the sessions: the sessions after it and the
flag `changed`. -/
def backfill (draw : Nat → Nat) : Nat → List Session → List Session × Bool
  | _, [] => ([], false)
  | k, s :: rest =>
    let r := backfillSession draw k s
    let rs := backfill draw r.2.1 rest
    (r.1 :: rs.1, r.2.2 || rs.2)

/-- The function `loadData`: the arrays `sessions` and `wishes` it leaves in
memory, and the content it saves when it calls `saveData`.  `draw` is the
stream of random indices of its calls of `generateDjKey`. -/
def loadData (draw : Nat → Nat) : DataFile → State × Option DataFile
  | .snapshot sessions wishes =>
    let loaded := backfill draw 0 (sessions.getD [])
    let st : State := { sessions := loaded.1, wishes := wishes.getD [] }
    (st, if loaded.2 then some (saveData st) else none)
  | .missing => ({ sessions := [], wishes := [] }, none)
  | .blank => ({ sessions := [], wishes := [] }, none)
  | .malformed => ({ sessions := [], wishes := [] }, none)

/-! ## Specification vocabulary

The predicates in which the properties below are stated. -/

/-- The session `S` is the session with the id `id`: the first one in the list
that carries it. -/
def IsSessionWithId (sessions : List Session) (id : String) (S : Session) : Prop :=
  S.id = id ∧ ∃ before after : List Session,
    sessions = before ++ S :: after ∧ ∀ s ∈ before, s.id ≠ id

/-- The text is empty or consists only of whitespace. -/
def isBlank (s : String) : Bool :=
  s.data.all isJsWhitespace

/-- The stored text `stored` is `input` with leading and trailing whitespace
removed: `input` is `stored` between two runs of whitespace, and `stored`
neither starts nor ends with whitespace. -/
def IsTrimOf (input stored : String) : Prop :=
  ∃ pre post : List Char,
    input.data = pre ++ stored.data ++ post ∧
    (∀ c ∈ pre, isJsWhitespace c = true) ∧
    (∀ c ∈ post, isJsWhitespace c = true) ∧
    (∀ c, stored.data.head? = some c → isJsWhitespace c = false) ∧
    (∀ c, stored.data.getLast? = some c → isJsWhitespace c = false)

/-- The status value is one of the strings `open`, `done`, `rejected`. -/
def IsAllowedStatus (v : JsVal) : Prop :=
  v = .str "open" ∨ v = .str "done" ∨ v = .str "rejected"

/-- The wish has the id that the path parameter `idParam` denotes:
`w.id === Number(req.params.id)`. -/
def hasId (js : Builtins) (idParam : String) (w : Wish) : Bool :=
  JsNum.strictEq (.fin w.id) (jsNumber js (.str idParam))

/-- Every wish of the state has a status among `open`, `done`, `rejected`. -/
def StatusValid (st : State) : Prop :=
  ∀ w ∈ st.wishes, w.status = "open" ∨ w.status = "done" ∨ w.status = "rejected"

/-- The number of wishes of session `sessionId` that carry the device id `d`. -/
def deviceCount (wishes : List Wish) (sessionId d : String) : Nat :=
  wishes.countP (fun w => decide (w.sessionId = sessionId ∧ w.deviceId = some d))

/-- A submission from device `d` to session `S` with non-empty title, artist
and session id, and with a non-blank name when `S` requires one. -/
structure DeviceSubmission (S : Session) (d : String) (body : WishInput) : Prop where
  title : ∃ t, body.title = some t ∧ t ≠ ""
  artist : ∃ a, body.artist = some a ∧ a ≠ ""
  sessionId : body.sessionId = some S.id ∧ S.id ≠ ""
  name : (∃ stg, S.settings = some stg ∧ stg.requireName = some true) →
    ∃ n, body.name = some n ∧ isBlank n = false
  deviceId : body.deviceId = some d ∧ d ≠ ""

/-- The names `a` and `b` are equal after trimming and lower-casing. -/
def sameGuest (js : Builtins) (a b : String) : Prop :=
  js.toLowerCase (jsTrim a) = js.toLowerCase (jsTrim b)

/-- The number of wishes of session `sessionId` whose stored name, trimmed and
lower-cased, equals the trimmed, lower-cased name `b`. -/
def nameCount (js : Builtins) (wishes : List Wish) (sessionId b : String) : Nat :=
  wishes.countP (fun w => decide (w.sessionId = sessionId ∧
    js.toLowerCase (jsTrim (orEmpty w.name)) = js.toLowerCase (jsTrim b)))

/-- A submission to session `S` under a non-blank name that is the same guest
as `b`. -/
structure NamedSubmission (js : Builtins) (S : Session) (b : String) (body : WishInput) :
    Prop where
  sessionId : body.sessionId = some S.id
  name : ∃ a, body.name = some a ∧ isBlank a = false ∧ sameGuest js a b

/-- The requests that submit the given wishes, in order. -/
def submissions (reqs : List (Int × String × WishInput)) : List Request :=
  reqs.map (fun r => Request.submitWish r.1 r.2.1 r.2.2)

/-! ## Example data -/

/-- Example settings: at most one wish per guest, name optional. -/
def demoSettings : Settings :=
  { maxWishesPerGuest := some (.fin 1), requireName := some false, allowComment := some true }

/-- Example session `ABC123` with the key `k3y`. -/
def demoSession : Session :=
  { id := "ABC123", name := "Party", active := some true, createdAt := "2024-05-01T18:00:00.000Z"
    settings := some demoSettings, djKey := some "k3y" }

/-- Example state: the one session, no wishes. -/
def demoState : State :=
  { sessions := [demoSession], wishes := [] }

/-- Example submission from the device `dev1`. -/
def demoWish : WishInput :=
  { name := some "Alice", title := some "Song A", artist := some "Artist A", comment := none
    sessionId := some "ABC123", deviceId := some "dev1" }

/-- Example submission without device id under the given name. -/
def demoNamedWish (name : String) : WishInput :=
  { name := some name, title := some "Song A", artist := some "Artist A", comment := none
    sessionId := some "ABC123", deviceId := none }

/-- Example session `ABC123` after it was closed. -/
def closedSession : Session :=
  { demoSession with active := some false }

/-- Example state with the closed session only. -/
def closedState : State :=
  { sessions := [closedSession], wishes := [] }

/-- Example submission that lacks the title. -/
def untitledWish : WishInput :=
  { name := some "Alice", title := none, artist := some "Artist A", comment := none
    sessionId := some "ABC123", deviceId := some "dev1" }

/-- Example state: the session `ABC123` and a second session `XYZ789`, each
with one open wish; both wishes have the id 5. -/
def twoSessionState : State :=
  { sessions := [demoSession, { demoSession with id := "XYZ789", djKey := some "0ther" }]
    wishes :=
      [{ id := 5, sessionId := "XYZ789", sessionName := "Party", name := some "Bob"
         title := "Song B", artist := "Artist B", comment := "", deviceId := none
         status := "open", createdAt := "t5" },
       { id := 5, sessionId := "ABC123", sessionName := "Party", name := some "Alice"
         title := "Song A", artist := "Artist A", comment := "", deviceId := none
         status := "open", createdAt := "t5" }] }

/-- Example submission whose title is a single blank. -/
def blankTitleWish : WishInput :=
  { name := some "Alice", title := some " ", artist := some "Artist A", comment := none
    sessionId := some "ABC123", deviceId := some "dev1" }

/-- The number is a non-negative integer. -/
def IsNonNegInteger (x : JsNum) : Prop :=
  ∃ n : ℕ, x = .fin n

/-- The session `s1` has the identity fields of `s`: the same `id`, `name`,
`createdAt` and `djKey`. -/
def SameIdentity (s s1 : Session) : Prop :=
  s1.id = s.id ∧ s1.name = s.name ∧ s1.createdAt = s.createdAt ∧ s1.djKey = s.djKey

/-- The clock readings `Date.now()` that a sequence of requests hands to the
wish handler, in order. -/
def clockReadings : List Request → List Int
  | [] => []
  | .submitWish now _ _ :: rest => now :: clockReadings rest
  | _ :: rest => clockReadings rest

/-- The number of sessions among the first `i` of the list that lack a key
(`!s.djKey`): the number of keys `loadData` has generated when its loop
reaches the session at index `i`. -/
def keylessBefore (l : List Session) (i : Nat) : Nat :=
  (l.take i).countP (fun s => !truthyStr s.djKey)

/-- The session `s1` is the session `s` of a snapshot after the backfill of
`loadData`, when `k` keys were generated before it: a missing `active` is
`true`, a missing or empty `djKey` is the key generated from the `k`-th window
of thirty-two random draws, and everything else is as it was. -/
def Backfills (draw : Nat → Nat) (k : Nat) (s s1 : Session) : Prop :=
  s1.id = s.id ∧ s1.name = s.name ∧ s1.createdAt = s.createdAt ∧ s1.settings = s.settings ∧
  (s.active = none → s1.active = some true) ∧
  (s.active ≠ none → s1.active = s.active) ∧
  (truthyStr s.djKey = false →
    s1.djKey = some (generateDjKey (fun i => draw (32 * k + i)))) ∧
  (truthyStr s.djKey = true → s1.djKey = s.djKey) ∧
  (s.active ≠ none → truthyStr s.djKey = true → s1 = s)

/-- Every session has a defined `active` flag and a non-empty `djKey`. -/
def Backfilled (st : State) : Prop :=
  ∀ s ∈ st.sessions, s.active ≠ none ∧ ∃ key, s.djKey = some key ∧ key ≠ ""

/-- Example snapshot written before sessions had `active` and `djKey`: a
session without both, a session with both, a session with an empty key, and
one wish. -/
def legacyFile : DataFile :=
  .snapshot
    (some [{ id := "OLD001", name := "Old", active := none, createdAt := "2023-01-01T00:00:00.000Z"
             settings := none, djKey := none },
           demoSession,
           { id := "OLD002", name := "Older", active := some false
             createdAt := "2022-01-01T00:00:00.000Z", settings := none, djKey := some "" }])
    (some [{ id := 5, sessionId := "OLD001", sessionName := "Old", name := some "Bob"
             title := "Song B", artist := "Artist B", comment := "", deviceId := none
             status := "open", createdAt := "t5" }])

/-- Example random draws: the thirty-two draws of the first key are all 0, those
of the second key all 1, and so on. -/
def windowDraw (i : Nat) : Nat :=
  (i / 32) % 62

/-- The random indices of a request are what `Math.floor(Math.random() * n)`
can return: below 36 for the six characters of a session id, below 62 for the
thirty-two characters of a key. -/
def Request.drawsInRange : Request → Prop
  | .createSession draw _ _ => (∀ i, i < 6 → draw i < 36) ∧ (∀ i, i < 32 → draw (6 + i) < 62)
  | _ => True

/-- The states the server can be in: the state after `loadData`, and every
state a request leads to from such a state. -/
inductive Reachable (js : Builtins) : State → Prop where
  | load (draw : Nat → Nat) (file : DataFile) (hdraw : ∀ i, draw i < 62) :
      Reachable js (loadData draw file).1
  | step (st : State) (req : Request) (hst : Reachable js st) (hreq : req.drawsInRange) :
      Reachable js (handle js req st).2

/-- Every stored limit is a finite number. -/
def FiniteLimits (st : State) : Prop :=
  ∀ s ∈ st.sessions, ∀ stg, s.settings = some stg →
    ∀ n, stg.maxWishesPerGuest = some n → ∃ q, n = .fin q

/-- Example state: the empty state after loading without a file, then a
session created with the limit `1e999`, which a request body parses to
`Infinity`. -/
def unlimitedState : State :=
  (handle asciiBuiltins
    (.createSession (fun i => i) "t0" ⟨some "Party", .num .posInf, .undefined, .undefined⟩)
    (loadData (fun _ => 0) .missing).1).2

/-- Every stored wish name is non-empty after trimming. -/
def NamesNonBlank (st : State) : Prop :=
  ∀ w ∈ st.wishes, isBlank (orEmpty w.name) = false

/-- A submission without device id whose name is absent or blank. -/
def IsAnonymous (body : WishInput) : Prop :=
  truthyStr body.deviceId = false ∧ isBlank (orEmpty body.name) = true

/-- Example submission without name and device id. -/
def anonymousWish : WishInput :=
  { name := none, title := some "Song A", artist := some "Artist A", comment := none
    sessionId := some "ABC123", deviceId := none }

/-! ## Facts about `trim` -/

theorem dropTrailing_eq_rdropWhile (l : List Char) :
    dropTrailing l = l.rdropWhile isJsWhitespace := rfl

theorem dropWhile_all_iff (l : List Char) :
    (∀ c ∈ l.dropWhile isJsWhitespace, isJsWhitespace c = true) ↔
      ∀ c ∈ l, isJsWhitespace c = true := by
  constructor
  · intro h
    have h1 : (l.dropWhile isJsWhitespace).dropWhile isJsWhitespace = [] :=
      List.dropWhile_eq_nil_iff.mpr h
    rw [List.dropWhile_idempotent] at h1
    exact List.dropWhile_eq_nil_iff.mp h1
  · intro h c hc
    exact h c (List.dropWhile_subset _ hc)

theorem trimChars_eq_nil_iff (l : List Char) :
    trimChars l = [] ↔ ∀ c ∈ l, isJsWhitespace c = true := by
  unfold trimChars
  rw [dropTrailing_eq_rdropWhile, List.rdropWhile_eq_nil_iff, dropWhile_all_iff]

theorem trimChars_head (l : List Char) (c : Char) (h : (trimChars l).head? = some c) :
    isJsWhitespace c = false := by
  unfold trimChars at h
  rw [dropTrailing_eq_rdropWhile] at h
  obtain ⟨t, ht⟩ := List.rdropWhile_prefix isJsWhitespace (l.dropWhile isJsWhitespace)
  have hn := List.head?_dropWhile_not isJsWhitespace l
  rw [← ht] at hn
  cases hr : List.rdropWhile isJsWhitespace (l.dropWhile isJsWhitespace) with
  | nil => rw [hr] at h; simp at h
  | cons a r =>
    rw [hr] at h hn
    simp only [List.head?_cons, Option.some.injEq] at h
    simp only [List.cons_append, List.head?_cons] at hn
    subst h
    simpa using hn

theorem trimChars_getLast (l : List Char) (c : Char) (h : (trimChars l).getLast? = some c) :
    isJsWhitespace c = false := by
  unfold trimChars at h
  rw [dropTrailing_eq_rdropWhile] at h
  have hne : List.rdropWhile isJsWhitespace (l.dropWhile isJsWhitespace) ≠ [] := by
    intro h0
    rw [h0] at h
    simp at h
  have hl := List.rdropWhile_last_not isJsWhitespace (l.dropWhile isJsWhitespace) hne
  rw [List.getLast?_eq_getLast _ hne] at h
  simp only [Option.some.injEq] at h
  rw [h] at hl
  simpa using hl

theorem trimChars_idem (l : List Char) : trimChars (trimChars l) = trimChars l := by
  have h1 : (trimChars l).dropWhile isJsWhitespace = trimChars l := by
    cases ht : trimChars l with
    | nil => rfl
    | cons a r =>
      have ha := trimChars_head l a (by rw [ht]; rfl)
      simp [List.dropWhile_cons, ha]
  have h2 : dropTrailing (trimChars l) = trimChars l := by
    unfold trimChars
    rw [dropTrailing_eq_rdropWhile, dropTrailing_eq_rdropWhile, List.rdropWhile_idempotent]
  have h3 : trimChars (trimChars l) =
      dropTrailing ((trimChars l).dropWhile isJsWhitespace) := rfl
  rw [h3, h1, h2]

theorem trimChars_decompose (l : List Char) :
    ∃ pre post : List Char, l = pre ++ trimChars l ++ post ∧
      (∀ c ∈ pre, isJsWhitespace c = true) ∧ (∀ c ∈ post, isJsWhitespace c = true) := by
  refine ⟨l.takeWhile isJsWhitespace,
    ((l.dropWhile isJsWhitespace).reverse.takeWhile isJsWhitespace).reverse, ?_, ?_, ?_⟩
  · have h1 := List.takeWhile_append_dropWhile isJsWhitespace (l.dropWhile isJsWhitespace).reverse
    have h2 : trimChars l ++
        ((l.dropWhile isJsWhitespace).reverse.takeWhile isJsWhitespace).reverse =
        l.dropWhile isJsWhitespace := by
      unfold trimChars dropTrailing
      rw [← List.reverse_append, h1, List.reverse_reverse]
    rw [List.append_assoc, h2, List.takeWhile_append_dropWhile]
  · intro c hc
    exact (List.mem_takeWhile_imp hc)
  · intro c hc
    rw [List.mem_reverse] at hc
    exact (List.mem_takeWhile_imp hc)

theorem jsTrim_eq_empty_iff (s : String) :
    jsTrim s = "" ↔ ∀ c ∈ s.data, isJsWhitespace c = true := by
  rw [← trimChars_eq_nil_iff]
  unfold jsTrim
  constructor
  · intro h
    have := congrArg String.data h
    simpa using this
  · intro h
    rw [h]

theorem jsTrim_idem (s : String) : jsTrim (jsTrim s) = jsTrim s := by
  unfold jsTrim
  rw [trimChars_idem]

theorem jsTrim_isTrimOf (s : String) : IsTrimOf s (jsTrim s) := by
  obtain ⟨pre, post, h, hpre, hpost⟩ := trimChars_decompose s.data
  exact ⟨pre, post, h, hpre, hpost, fun c hc => trimChars_head s.data c hc,
    fun c hc => trimChars_getLast s.data c hc⟩

/-! ## Facts about the session lookup -/

theorem findSession_eq_some_iff (st : State) (id : String) (S : Session) :
    findSession st (some id) = some S ↔ IsSessionWithId st.sessions id S := by
  unfold findSession IsSessionWithId
  rw [List.find?_eq_some]
  simp

theorem findSession_eq_none_iff (st : State) (id : String) :
    findSession st (some id) = none ↔ ∀ s ∈ st.sessions, s.id ≠ id := by
  unfold findSession
  rw [List.find?_eq_none]
  simp

theorem isSessionWithId_unique (sessions : List Session) (id : String) (S : Session)
    (hnodup : (sessions.map (fun s => s.id)).Nodup) :
    IsSessionWithId sessions id S ↔ S ∈ sessions ∧ S.id = id := by
  constructor
  · rintro ⟨hid, before, after, hs, _⟩
    exact ⟨by rw [hs]; simp, hid⟩
  · rintro ⟨hmem, hid⟩
    obtain ⟨before, after, hs⟩ := List.append_of_mem hmem
    refine ⟨hid, before, after, hs, fun s hsb hsid => ?_⟩
    rw [hs, List.map_append, List.map_cons] at hnodup
    have hdisj := (List.nodup_append.mp hnodup).2.2
    exact hdisj (List.mem_map.mpr ⟨s, hsb, rfl⟩)
      (by rw [hsid, ← hid]; exact List.mem_cons_self _ _)

/-! ## Facts about `submitWish` -/

theorem isBlank_iff_jsTrim (s : String) : isBlank s = true ↔ jsTrim s = "" := by
  rw [jsTrim_eq_empty_iff]
  simp [isBlank]

theorem isBlank_false_iff (s : String) : isBlank s = false ↔ jsTrim s ≠ "" := by
  rw [Ne, ← isBlank_iff_jsTrim]
  simp

theorem truthyStr_some_iff (s : String) : truthyStr (some s) = true ↔ s ≠ "" := by
  simp [truthyStr]

theorem truthyStr_true_iff (o : Option String) :
    truthyStr o = true ↔ ∃ s, o = some s ∧ s ≠ "" := by
  cases o <;> simp [truthyStr]

theorem jsTrim_empty : jsTrim "" = "" := by decide

/-- The handler past its four guards: the outcome is decided by the quota
check alone. -/
theorem submitWish_past_guards (js : Builtins) (now : Int) (nowIso : String) (body : WishInput)
    (st : State) (S : Session)
    (htitle : truthyStr body.title = true) (hartist : truthyStr body.artist = true)
    (hsid : truthyStr body.sessionId = true)
    (hfind : findSession st body.sessionId = some S)
    (hactive : S.active = some true)
    (hname : truthyFlag (S.settings.getD Settings.empty).requireName = true →
      truthyStr (body.name.map jsTrim) = true) :
    submitWish js now nowIso body st =
      match quotaReached js (S.settings.getD Settings.empty) st.wishes S.id body.deviceId
          (jsTrim (orEmpty body.name)) with
      | some limit => (.fail 400 (.quotaExceeded limit), st)
      | none =>
        (.ok (.wish (newWish now nowIso body S (jsTrim (orEmpty body.name)))),
          { st with wishes := st.wishes ++
              [newWish now nowIso body S (jsTrim (orEmpty body.name))] }) := by
  have hname2 : truthyFlag (S.settings.getD Settings.empty).requireName = true →
      truthyStr body.name = true := by
    intro h
    have h1 := hname h
    cases hn : body.name with
    | none => rw [hn] at h1; simp [truthyStr] at h1
    | some n =>
      rw [hn] at h1
      simp only [Option.map_some', truthyStr_some_iff] at h1 ⊢
      intro h0
      apply h1
      rw [h0]
      exact jsTrim_empty
  have hact : truthyFlag S.active = true := by rw [hactive]; rfl
  unfold submitWish
  simp only [htitle, hartist, hsid, hfind, hact]
  by_cases hreq : truthyFlag (S.settings.getD Settings.empty).requireName = true
  · simp [hreq, hname hreq, hname2 hreq]
  · simp [hreq]

theorem truthyFlag_eq_true_iff (o : Option Bool) : truthyFlag o = true ↔ o = some true := by
  cases o with
  | none => simp [truthyFlag]
  | some b => cases b <;> simp [truthyFlag]

theorem requireName_hyp (S : Session) (body : WishInput)
    (h : (∃ stg, S.settings = some stg ∧ stg.requireName = some true) →
      ∃ n, body.name = some n ∧ isBlank n = false) :
    truthyFlag (S.settings.getD Settings.empty).requireName = true →
      truthyStr (body.name.map jsTrim) = true := by
  intro hreq
  rw [truthyFlag_eq_true_iff] at hreq
  cases hs : S.settings with
  | none => rw [hs] at hreq; simp [Settings.empty] at hreq
  | some stg =>
    rw [hs] at hreq
    obtain ⟨n, hn, hb⟩ := h ⟨stg, hs, by simpa using hreq⟩
    rw [hn]
    simp only [Option.map_some', truthyStr_some_iff]
    exact (isBlank_false_iff n).mp hb

theorem quotaReached_device (js : Builtins) (stg : Settings) (N : Nat) (wishes : List Wish)
    (sid d name : String) (hmax : stg.maxWishesPerGuest = some (.fin N)) (hN : 0 < N)
    (hd : d ≠ "") :
    quotaReached js stg wishes sid (some d) name =
      if N ≤ deviceCount wishes sid d then some (.fin N) else none := by
  have hc : existingCount js wishes sid (some d) name = deviceCount wishes sid d := by
    unfold existingCount deviceCount
    rw [(truthyStr_some_iff d).mpr hd, if_pos rfl, ← List.countP_eq_length_filter]
    congr 1
    funext w
    rw [Bool.eq_iff_iff]
    simp
  unfold quotaReached
  rw [hmax]
  have h1 : (JsNum.fin (N : ℚ)).truthy = true := by
    simp only [JsNum.truthy, decide_eq_true_eq]
    exact_mod_cast Nat.pos_iff_ne_zero.mp hN
  have h2 : (JsNum.fin (N : ℚ)).gtZero = true := by
    simp only [JsNum.gtZero, decide_eq_true_eq]
    exact_mod_cast hN
  simp only [h1, h2, hc, JsNum.countGe, Bool.and_self, if_true, decide_eq_true_eq, Nat.cast_le]

theorem submit_device_step (js : Builtins) (st : State) (S : Session) (stg : Settings) (N : Nat)
    (d : String) (hfind : findSession st (some S.id) = some S) (hactive : S.active = some true)
    (hstg : S.settings = some stg) (hmax : stg.maxWishesPerGuest = some (.fin N)) (hN : 0 < N)
    (now : Int) (nowIso : String) (body : WishInput) (hb : DeviceSubmission S d body) :
    submitWish js now nowIso body st =
      if N ≤ deviceCount st.wishes S.id d then (.fail 400 (.quotaExceeded (.fin N)), st)
      else
        (.ok (.wish (newWish now nowIso body S (jsTrim (orEmpty body.name)))),
          { st with wishes := st.wishes ++
              [newWish now nowIso body S (jsTrim (orEmpty body.name))] }) := by
  obtain ⟨t, ht, ht0⟩ := hb.title
  obtain ⟨a, ha, ha0⟩ := hb.artist
  obtain ⟨hsid, hsid0⟩ := hb.sessionId
  obtain ⟨hdev, hd0⟩ := hb.deviceId
  rw [submitWish_past_guards js now nowIso body st S
    (by rw [ht]; exact (truthyStr_some_iff t).mpr ht0)
    (by rw [ha]; exact (truthyStr_some_iff a).mpr ha0)
    (by rw [hsid]; exact (truthyStr_some_iff S.id).mpr hsid0)
    (by rw [hsid]; exact hfind) hactive (requireName_hyp S body hb.name)]
  rw [hstg, Option.getD_some, hdev, quotaReached_device js stg N st.wishes S.id d _ hmax hN hd0]
  by_cases hle : N ≤ deviceCount st.wishes S.id d
  · simp [hle]
  · simp [hle]

theorem deviceCount_append_newWish (wishes : List Wish) (S : Session) (d : String)
    (now : Int) (nowIso : String) (body : WishInput) (name : String)
    (hdev : body.deviceId = some d) (hd : d ≠ "") :
    deviceCount (wishes ++ [newWish now nowIso body S name]) S.id d =
      deviceCount wishes S.id d + 1 := by
  unfold deviceCount
  rw [List.countP_append]
  simp [newWish, hdev, truthyStr, hd]

theorem handleAll_submissions_cons (js : Builtins) (r : Int × String × WishInput)
    (rs : List (Int × String × WishInput)) (st : State) :
    (handleAll js (submissions (r :: rs)) st).1 =
      (submitWish js r.1 r.2.1 r.2.2 st).1 ::
        (handleAll js (submissions rs) (submitWish js r.1 r.2.1 r.2.2 st).2).1 := by
  simp [submissions, handleAll, handle]

theorem submit_device_run (js : Builtins) (S : Session) (stg : Settings) (N : Nat) (d : String)
    (hactive : S.active = some true) (hstg : S.settings = some stg)
    (hmax : stg.maxWishesPerGuest = some (.fin N)) (hN : 0 < N) :
    ∀ (reqs : List (Int × String × WishInput)) (st : State),
      findSession st (some S.id) = some S →
      (∀ r ∈ reqs, DeviceSubmission S d r.2.2) →
      ∀ i, i < reqs.length →
        (deviceCount st.wishes S.id d + i < N →
          ∃ w, (handleAll js (submissions reqs) st).1[i]? = some (.ok (.wish w))) ∧
        (N ≤ deviceCount st.wishes S.id d + i →
          (handleAll js (submissions reqs) st).1[i]? =
            some (.fail 400 (.quotaExceeded (.fin N)))) := by
  intro reqs
  induction reqs with
  | nil => intro st _ _ i hi; simp at hi
  | cons r rs ih =>
    intro st hfind hvalid i hi
    have hr := hvalid r (List.mem_cons_self _ _)
    have hstep := submit_device_step js st S stg N d hfind hactive hstg hmax hN r.1 r.2.1 r.2.2 hr
    rw [handleAll_submissions_cons]
    cases i with
    | zero =>
      simp only [Nat.add_zero, List.getElem?_cons_zero, Option.some.injEq]
      constructor
      · intro hlt
        rw [hstep, if_neg (Nat.not_le.mpr hlt)]
        exact ⟨_, rfl⟩
      · intro hle
        rw [hstep, if_pos hle]
    | succ k =>
      simp only [List.getElem?_cons_succ]
      have hk : k < rs.length := by simpa using hi
      have hvalid2 : ∀ r ∈ rs, DeviceSubmission S d r.2.2 :=
        fun x hx => hvalid x (List.mem_cons_of_mem _ hx)
      by_cases hle : N ≤ deviceCount st.wishes S.id d
      · have hst : (submitWish js r.1 r.2.1 r.2.2 st).2 = st := by rw [hstep, if_pos hle]
        rw [hst]
        have := ih st hfind hvalid2 k hk
        constructor
        · intro hlt; omega
        · intro _; exact this.2 (by omega)
      · have hst : (submitWish js r.1 r.2.1 r.2.2 st).2 =
            { st with wishes := st.wishes ++
              [newWish r.1 r.2.1 r.2.2 S (jsTrim (orEmpty r.2.2.name))] } := by
          rw [hstep, if_neg hle]
        rw [hst]
        have hfind2 : findSession { st with wishes := st.wishes ++
              [newWish r.1 r.2.1 r.2.2 S (jsTrim (orEmpty r.2.2.name))] } (some S.id) = some S :=
          hfind
        have := ih _ hfind2 hvalid2 k hk
        simp only [deviceCount_append_newWish st.wishes S d r.1 r.2.1 r.2.2 _ hr.deviceId.1
          hr.deviceId.2] at this
        constructor
        · intro hlt; exact this.1 (by omega)
        · intro hge; exact this.2 (by omega)

/-- C1. Device quota of submit: in an active session whose limit is `N > 0`, a
submission with non-empty title, artist and session id, an admissible name and
a non-empty device id `d` is accepted, appending exactly the new wish, when
fewer than `N` wishes of that session carry `d`, and is rejected with the
quota message for `N` when `N` or more do.  From a ledger with no wish of `d`
in the session, the first `N` of `N + 1` such submissions succeed and the last
one is rejected. -/
theorem submit_device_quota (js : Builtins) (st : State) (S : Session) (stg : Settings)
    (N : Nat) (d : String) (hS : IsSessionWithId st.sessions S.id S)
    (hactive : S.active = some true) (hstg : S.settings = some stg)
    (hmax : stg.maxWishesPerGuest = some (.fin N)) (hN : 0 < N) :
    (∀ (now : Int) (nowIso : String) (body : WishInput), DeviceSubmission S d body →
      (deviceCount st.wishes S.id d < N →
        submitWish js now nowIso body st =
          (.ok (.wish (newWish now nowIso body S (jsTrim (orEmpty body.name)))),
            { st with wishes := st.wishes ++
                [newWish now nowIso body S (jsTrim (orEmpty body.name))] })) ∧
      (N ≤ deviceCount st.wishes S.id d →
        submitWish js now nowIso body st = (.fail 400 (.quotaExceeded (.fin N)), st))) ∧
    (deviceCount st.wishes S.id d = 0 →
      ∀ reqs : List (Int × String × WishInput), reqs.length = N + 1 →
        (∀ r ∈ reqs, DeviceSubmission S d r.2.2) →
        (∀ i, i < N → ∃ w, (handleAll js (submissions reqs) st).1[i]? = some (.ok (.wish w))) ∧
        (handleAll js (submissions reqs) st).1[N]? =
          some (.fail 400 (.quotaExceeded (.fin N)))) := by
  have hfind := (findSession_eq_some_iff st S.id S).mpr hS
  constructor
  · intro now nowIso body hb
    have hstep := submit_device_step js st S stg N d hfind hactive hstg hmax hN now nowIso body hb
    constructor
    · intro hlt
      rw [hstep, if_neg (Nat.not_le.mpr hlt)]
    · intro hle
      rw [hstep, if_pos hle]
  · intro h0 reqs hlen hvalid
    have hrun := submit_device_run js S stg N d hactive hstg hmax hN reqs st hfind hvalid
    constructor
    · intro i hi
      exact (hrun i (by omega)).1 (by omega)
    · exact (hrun N (by omega)).2 (by omega)

theorem demoWish_deviceSubmission : DeviceSubmission demoSession "dev1" demoWish :=
  { title := ⟨"Song A", rfl, by decide⟩
    artist := ⟨"Artist A", rfl, by decide⟩
    sessionId := ⟨rfl, by decide⟩
    name := fun _ => ⟨"Alice", rfl, by decide⟩
    deviceId := ⟨rfl, by decide⟩ }

/-- C1, at the example session with limit 1: the first of two submissions from
`dev1` is accepted and the second is rejected with the quota message. -/
theorem submit_device_quota_witness :
    (∃ w, (handleAll asciiBuiltins (submissions [(5, "t5", demoWish), (6, "t6", demoWish)])
        demoState).1[0]? = some (.ok (.wish w))) ∧
      (handleAll asciiBuiltins (submissions [(5, "t5", demoWish), (6, "t6", demoWish)])
        demoState).1[1]? = some (.fail 400 (.quotaExceeded (.fin (1 : ℕ)))) :=
  have h := (submit_device_quota asciiBuiltins demoState demoSession demoSettings 1 "dev1"
    ⟨rfl, [], [], rfl, by simp⟩ rfl rfl (by simp [demoSettings]) (by decide)).2 (by decide)
    [(5, "t5", demoWish), (6, "t6", demoWish)] rfl
    (by intro r hr; simp at hr; rcases hr with rfl | rfl <;> exact demoWish_deviceSubmission)
  ⟨h.1 0 (by decide), h.2⟩

/-! ## The name quota -/

/-- Every outcome of `submitWish`: an error that leaves the state as it was, or
the new wish of the session the lookup found, appended to the ledger. -/
theorem submitWish_cases (js : Builtins) (now : Int) (nowIso : String) (body : WishInput)
    (st : State) :
    (∃ code msg, submitWish js now nowIso body st = (.fail code msg, st)) ∨
    (∃ S, findSession st body.sessionId = some S ∧
      submitWish js now nowIso body st =
        (.ok (.wish (newWish now nowIso body S (jsTrim (orEmpty body.name)))),
          { st with wishes := st.wishes ++
              [newWish now nowIso body S (jsTrim (orEmpty body.name))] })) := by
  unfold submitWish
  split
  · exact Or.inl ⟨_, _, rfl⟩
  · split
    · exact Or.inl ⟨_, _, rfl⟩
    · rename_i S hS
      split
      · exact Or.inl ⟨_, _, rfl⟩
      · dsimp only
        split
        · exact Or.inl ⟨_, _, rfl⟩
        · split
          · exact Or.inl ⟨_, _, rfl⟩
          · exact Or.inr ⟨S, hS, rfl⟩

theorem nameCount_append_newWish (js : Builtins) (wishes : List Wish) (S : Session)
    (a b : String) (now : Int) (nowIso : String) (body : WishInput)
    (ha : isBlank a = false) (hab : sameGuest js a b) :
    nameCount js (wishes ++ [newWish now nowIso body S (jsTrim a)]) S.id b =
      nameCount js wishes S.id b + 1 := by
  have hne : jsTrim a ≠ "" := (isBlank_false_iff a).mp ha
  unfold nameCount
  rw [List.countP_append]
  simp only [List.countP_cons, List.countP_nil, Nat.zero_add, Nat.add_left_cancel_iff]
  rw [if_pos]
  simp only [newWish, bne_iff_ne, ne_eq, hne, not_false_eq_true, if_true, orEmpty, jsTrim_idem,
    true_and, decide_eq_true_eq]
  exact hab

theorem quotaReached_name (js : Builtins) (stg : Settings) (N : Nat) (wishes : List Wish)
    (sid b : String) (dev : Option String) (hmax : stg.maxWishesPerGuest = some (.fin N))
    (hN : 0 < N) (hdev : truthyStr dev = false) :
    quotaReached js stg wishes sid dev (jsTrim b) =
      if N ≤ nameCount js wishes sid b then some (.fin N) else none := by
  have hc : existingCount js wishes sid dev (jsTrim b) = nameCount js wishes sid b := by
    unfold existingCount nameCount
    rw [hdev, if_neg (by simp), ← List.countP_eq_length_filter]
    congr 1
    funext w
    rw [Bool.eq_iff_iff]
    simp
  unfold quotaReached
  rw [hmax]
  have h1 : (JsNum.fin (N : ℚ)).truthy = true := by
    simp only [JsNum.truthy, decide_eq_true_eq]
    exact_mod_cast Nat.pos_iff_ne_zero.mp hN
  have h2 : (JsNum.fin (N : ℚ)).gtZero = true := by
    simp only [JsNum.gtZero, decide_eq_true_eq]
    exact_mod_cast hN
  simp only [h1, h2, hc, JsNum.countGe, Bool.and_self, if_true, decide_eq_true_eq, Nat.cast_le]

theorem named_step_counted (js : Builtins) (st st1 : State) (S : Session) (b : String)
    (hfind : findSession st (some S.id) = some S)
    (now : Int) (nowIso : String) (body : WishInput) (hb : NamedSubmission js S b body)
    (w : Wish) (hok : submitWish js now nowIso body st = (.ok (.wish w), st1)) :
    st1.sessions = st.sessions ∧
      nameCount js st1.wishes S.id b = nameCount js st.wishes S.id b + 1 := by
  obtain ⟨a, hname, ha, hab⟩ := hb.name
  rcases submitWish_cases js now nowIso body st with ⟨code, msg, hf⟩ | ⟨S1, hS1, hs⟩
  · rw [hf] at hok
    cases hok
  · rw [hb.sessionId, hfind] at hS1
    cases hS1
    rw [hs] at hok
    simp only [Prod.mk.injEq] at hok
    rw [← hok.2, hname]
    exact ⟨rfl, nameCount_append_newWish js st.wishes S a b now nowIso body ha hab⟩

theorem named_run_counted (js : Builtins) (S : Session) (b : String) :
    ∀ (reqs : List (Int × String × WishInput)) (st : State),
      findSession st (some S.id) = some S →
      (∀ r ∈ reqs, NamedSubmission js S b r.2.2) →
      (∀ i, i < reqs.length →
        ∃ w, (handleAll js (submissions reqs) st).1[i]? = some (.ok (.wish w))) →
      (handleAll js (submissions reqs) st).2.sessions = st.sessions ∧
        nameCount js (handleAll js (submissions reqs) st).2.wishes S.id b =
          nameCount js st.wishes S.id b + reqs.length := by
  intro reqs
  induction reqs with
  | nil => intro st _ _ _; simp [submissions, handleAll]
  | cons r rs ih =>
    intro st hfind hvalid hok
    have hsnd : (handleAll js (submissions (r :: rs)) st).2 =
        (handleAll js (submissions rs) (submitWish js r.1 r.2.1 r.2.2 st).2).2 := by
      simp [submissions, handleAll, handle]
    obtain ⟨w, hw⟩ := hok 0 (by simp)
    rw [handleAll_submissions_cons] at hw
    simp only [List.getElem?_cons_zero, Option.some.injEq] at hw
    have hstep := named_step_counted js st (submitWish js r.1 r.2.1 r.2.2 st).2 S b hfind
      r.1 r.2.1 r.2.2 (hvalid r (List.mem_cons_self _ _)) w (Prod.ext hw rfl)
    have hfind1 : findSession (submitWish js r.1 r.2.1 r.2.2 st).2 (some S.id) = some S := by
      unfold findSession at hfind ⊢
      rw [hstep.1]
      exact hfind
    have hrest := ih (submitWish js r.1 r.2.1 r.2.2 st).2 hfind1
      (fun x hx => hvalid x (List.mem_cons_of_mem _ hx))
      (by
        intro i hi
        obtain ⟨w1, hw1⟩ := hok (i + 1) (by simpa using hi)
        rw [handleAll_submissions_cons] at hw1
        exact ⟨w1, by simpa using hw1⟩)
    rw [hsnd, hrest.1, hrest.2, hstep.1, hstep.2, List.length_cons]
    exact ⟨rfl, by omega⟩

/-- C2 (amended). The name quota ignores case and surrounding whitespace for
non-blank names: in an active session, a wish accepted under a non-blank name
`a` counts toward every name `b` that equals `a` after trimming and
lower-casing; hence, with limit `N > 0`, after `N` accepted submissions under
such names the next submission under a non-blank `b` without device id is
rejected with the quota message and changes nothing. -/
theorem submit_name_quota (js : Builtins) (st : State) (S : Session) (stg : Settings) (N : Nat)
    (b : String) (hS : IsSessionWithId st.sessions S.id S) (hid : S.id ≠ "")
    (hactive : S.active = some true) (hstg : S.settings = some stg)
    (hmax : stg.maxWishesPerGuest = some (.fin N)) (hN : 0 < N) (hb : isBlank b = false) :
    (∀ (now : Int) (nowIso : String) (body : WishInput) (w : Wish) (st1 : State),
      NamedSubmission js S b body →
      submitWish js now nowIso body st = (.ok (.wish w), st1) →
      nameCount js st1.wishes S.id b = nameCount js st.wishes S.id b + 1) ∧
    (∀ reqs : List (Int × String × WishInput), reqs.length = N →
      (∀ r ∈ reqs, NamedSubmission js S b r.2.2) →
      (∀ i, i < N → ∃ w, (handleAll js (submissions reqs) st).1[i]? = some (.ok (.wish w))) →
      ∀ (now : Int) (nowIso : String) (body : WishInput),
        body.name = some b → truthyStr body.deviceId = false →
        truthyStr body.title = true → truthyStr body.artist = true →
        body.sessionId = some S.id →
        submitWish js now nowIso body (handleAll js (submissions reqs) st).2 =
          (.fail 400 (.quotaExceeded (.fin N)), (handleAll js (submissions reqs) st).2)) := by
  have hfind := (findSession_eq_some_iff st S.id S).mpr hS
  constructor
  · intro now nowIso body w st1 hbody hok
    exact (named_step_counted js st st1 S b hfind now nowIso body hbody w hok).2
  · intro reqs hlen hvalid hok now nowIso body hname hdev htitle hartist hsid
    have hrun := named_run_counted js S b reqs st hfind hvalid (by rw [hlen]; exact hok)
    have hfind2 : findSession (handleAll js (submissions reqs) st).2 body.sessionId = some S := by
      unfold findSession at hfind ⊢
      rw [hrun.1, hsid]
      exact hfind
    rw [submitWish_past_guards js now nowIso body _ S htitle hartist
      (by rw [hsid]; exact (truthyStr_some_iff S.id).mpr hid) hfind2 hactive
      (by
        intro _
        rw [hname]
        simp only [Option.map_some', truthyStr_some_iff]
        exact (isBlank_false_iff b).mp hb)]
    rw [hstg, Option.getD_some, hname]
    simp only [orEmpty]
    rw [quotaReached_name js stg N _ S.id b body.deviceId hmax hN hdev, hrun.2, hlen,
      if_pos (Nat.le_add_left _ _)]

theorem demoNamedWish_namedSubmission :
    NamedSubmission asciiBuiltins demoSession " alice " (demoNamedWish "ALICE") :=
  { sessionId := rfl
    name := ⟨"ALICE", rfl, by decide, by unfold sameGuest; decide⟩ }

/-- C2 (amended), at the example session with limit 1: after the accepted wish
of `ALICE`, the submission of ` alice ` without device id is rejected. -/
theorem submit_name_quota_witness :
    submitWish asciiBuiltins 6 "t6" (demoNamedWish " alice ")
        (handleAll asciiBuiltins (submissions [(5, "t5", demoNamedWish "ALICE")]) demoState).2 =
      (.fail 400 (.quotaExceeded (.fin (1 : ℕ))),
        (handleAll asciiBuiltins (submissions [(5, "t5", demoNamedWish "ALICE")]) demoState).2) :=
  (submit_name_quota asciiBuiltins demoState demoSession demoSettings 1 " alice "
    ⟨rfl, [], [], rfl, by simp⟩ (by decide) rfl rfl (by simp [demoSettings]) (by decide)
    (by decide)).2
    [(5, "t5", demoNamedWish "ALICE")] rfl
    (by intro r hr; simp at hr; subst hr; exact demoNamedWish_namedSubmission)
    (by
      intro i hi
      obtain rfl : i = 0 := by omega
      exact ⟨_, rfl⟩)
    6 "t6" (demoNamedWish " alice ") rfl rfl rfl rfl rfl

/-- C2 as stated fails for blank names: the names `""` and `" "` are equal
after trimming and lower-casing, the session has limit 1 and does not require
a name, the first wish is accepted (stored under `Gast`), and the second
submission, without device id, is accepted as well instead of being rejected
for the quota. -/
theorem submit_name_quota_blank_counterexample :
    asciiBuiltins.toLowerCase (jsTrim "") = asciiBuiltins.toLowerCase (jsTrim " ") ∧
    (handleAll asciiBuiltins
        (submissions [(5, "t5", demoNamedWish ""), (6, "t6", demoNamedWish " ")]) demoState).1 =
      [.ok (.wish { id := 5, sessionId := "ABC123", sessionName := "Party", name := some "Gast"
                    title := "Song A", artist := "Artist A", comment := "", deviceId := none
                    status := "open", createdAt := "t5" }),
       .ok (.wish { id := 6, sessionId := "ABC123", sessionName := "Party", name := some "Gast"
                    title := "Song A", artist := "Artist A", comment := "", deviceId := none
                    status := "open", createdAt := "t6" })] := by
  decide

/-! ## Inactive sessions -/

/-- C3 (amended). A submission that names a session which is not active fails
and appends nothing, whatever its other fields: with the invalid-session
message when title, artist and session id are non-empty, and with the
missing-fields message otherwise. -/
theorem submit_inactive_session (js : Builtins) (st : State) (S : Session) (now : Int)
    (nowIso : String) (body : WishInput) (hsid : body.sessionId = some S.id)
    (hS : IsSessionWithId st.sessions S.id S) (hinactive : S.active ≠ some true) :
    submitWish js now nowIso body st =
      (if truthyStr body.title && truthyStr body.artist && truthyStr body.sessionId then
        .fail 400 .invalidSession
      else .fail 400 .missingFields, st) := by
  have hact : truthyFlag S.active = false := by
    cases h : truthyFlag S.active with
    | false => rfl
    | true => exact absurd ((truthyFlag_eq_true_iff _).mp h) hinactive
  have hf : findSession st body.sessionId = some S := by
    rw [hsid]
    exact (findSession_eq_some_iff st S.id S).mpr hS
  unfold submitWish
  cases h1 : truthyStr body.title <;> cases h2 : truthyStr body.artist <;>
    cases h3 : truthyStr body.sessionId <;> simp [hact, hf]

/-- C3 (amended), at the closed example session: a complete submission is
rejected with the invalid-session message. -/
theorem submit_inactive_session_witness :
    submitWish asciiBuiltins 5 "t5" demoWish closedState =
      (.fail 400 .invalidSession, closedState) :=
  submit_inactive_session asciiBuiltins closedState closedSession 5 "t5" demoWish rfl
    ⟨rfl, [], [], rfl, by simp⟩ (by decide)

/-- C3 as stated fails: a submission without title to the closed example
session is rejected with the missing-fields message, not the invalid-session
one. -/
theorem submit_inactive_session_counterexample :
    untitledWish.sessionId = some closedSession.id ∧
    closedState.sessions = [closedSession] ∧
    closedSession.active = some false ∧
    submitWish asciiBuiltins 5 "t5" untitledWish closedState =
      (.fail 400 .missingFields, closedState) := by
  decide

/-! ## In-place updates -/

theorem updateFirst_length {α : Type} (p : α → Bool) (f : α → α) (l : List α) :
    (updateFirst p f l).length = l.length := by
  induction l with
  | nil => rfl
  | cons x xs ih =>
    unfold updateFirst
    split <;> simp [ih]

theorem updateFirst_getElem? {α : Type} (p : α → Bool) (f : α → α) (l : List α) (i : Nat)
    (x : α) (h : l[i]? = some x) :
    (updateFirst p f l)[i]? = some x ∨ (p x = true ∧ (updateFirst p f l)[i]? = some (f x)) := by
  induction l generalizing i with
  | nil => simp at h
  | cons y ys ih =>
    unfold updateFirst
    by_cases hy : p y = true
    · rw [if_pos hy]
      cases i with
      | zero =>
        simp only [List.getElem?_cons_zero, Option.some.injEq] at h
        subst h
        exact Or.inr ⟨hy, by simp⟩
      | succ k =>
        simp only [List.getElem?_cons_succ] at h
        exact Or.inl (by simpa using h)
    · rw [if_neg hy]
      cases i with
      | zero => exact Or.inl (by simpa using h)
      | succ k =>
        simp only [List.getElem?_cons_succ] at h ⊢
        exact ih k h

theorem updateFirst_getElem?_of_false {α : Type} (p : α → Bool) (f : α → α) (l : List α)
    (i : Nat) (x : α) (h : l[i]? = some x) (hp : p x = false) :
    (updateFirst p f l)[i]? = some x := by
  rcases updateFirst_getElem? p f l i x h with h1 | ⟨h1, _⟩
  · exact h1
  · rw [hp] at h1
    cases h1

theorem updateFirst_of_find?_none {α : Type} (p : α → Bool) (f : α → α) (l : List α)
    (h : l.find? p = none) : updateFirst p f l = l := by
  induction l with
  | nil => rfl
  | cons x xs ih =>
    unfold updateFirst
    rw [List.find?_cons] at h
    cases hx : p x with
    | true => rw [hx] at h; cases h
    | false =>
      rw [hx] at h
      simp [ih h]

/-! ## The DJ key gate -/

theorem findSession_some_id (st : State) (id : Option String) (S : Session)
    (h : findSession st id = some S) : some S.id = id := by
  unfold findSession at h
  have := List.find?_some h
  simpa using this

theorem findSession_mem (st : State) (id : Option String) (S : Session)
    (h : findSession st id = some S) : S ∈ st.sessions := by
  unfold findSession at h
  exact List.mem_of_find?_eq_some h

theorem getSessionByIdAndKey_ok (st : State) (sessionId djKey : Option String) (S : Session) :
    getSessionByIdAndKey st sessionId djKey = .ok S ↔
      findSession st sessionId = some S ∧ truthyStr S.djKey = true ∧ S.djKey = djKey := by
  unfold getSessionByIdAndKey
  cases hf : findSession st sessionId with
  | none => simp
  | some T =>
    by_cases hk : (!truthyStr T.djKey || T.djKey != djKey) = true
    · simp only [hk, if_true, Option.some.injEq]
      constructor
      · intro h; cases h
      · rintro ⟨rfl, h1, h2⟩
        exfalso
        rw [h1, h2] at hk
        simp at hk
    · simp only [hk]
      simp only [Bool.or_eq_true, Bool.not_eq_true', bne_iff_ne, ne_eq, not_or,
        Bool.not_eq_false, Decidable.not_not] at hk
      constructor
      · intro h
        simp only [Bool.false_eq_true, if_false, Except.ok.injEq] at h
        subst h
        exact ⟨rfl, hk.1, hk.2⟩
      · rintro ⟨h, _, _⟩
        simp only [Option.some.injEq] at h
        subst h
        simp

theorem allowedStatus_eq_some_iff (v : JsVal) (s : String) :
    allowedStatus v = some s ↔ v = .str s ∧ (s = "open" ∨ s = "done" ∨ s = "rejected") := by
  cases v <;> simp [allowedStatus]
  rename_i t
  constructor
  · rintro ⟨h, rfl⟩
    exact ⟨rfl, h⟩
  · rintro ⟨rfl, h⟩
    exact ⟨h, rfl⟩

theorem allowedStatus_eq_none_iff (v : JsVal) : allowedStatus v = none ↔ ¬ IsAllowedStatus v := by
  unfold IsAllowedStatus
  cases v <;> simp [allowedStatus]

theorem allowedStatus_of_isAllowed (v : JsVal) (h : IsAllowedStatus v) :
    ∃ s, allowedStatus v = some s ∧ v = .str s := by
  cases hv : allowedStatus v with
  | none => exact absurd h ((allowedStatus_eq_none_iff v).mp hv)
  | some s => exact ⟨s, rfl, ((allowedStatus_eq_some_iff v s).mp hv).1⟩

/-- The state after a DJ status change: the sessions are untouched, and the
wishes are the old ones with at most the first wish of the authorized session
with the requested id changed. -/
theorem djSetStatus_state (js : Builtins) (idParam : String) (status : JsVal)
    (sessionId djKey : Option String) (st : State) :
    (djSetStatus js idParam status sessionId djKey st).2 = st ∨
    ∃ s S, allowedStatus status = some s ∧ getSessionByIdAndKey st sessionId djKey = .ok S ∧
      (djSetStatus js idParam status sessionId djKey st).2 =
        { st with wishes := (updateFirst (fun w => hasId js idParam w && w.sessionId == S.id)
            (fun w => { w with status := s }) st.wishes) } := by
  unfold djSetStatus
  cases hs : allowedStatus status with
  | none => exact Or.inl rfl
  | some s =>
    dsimp only
    split
    · exact Or.inl rfl
    · cases hg : getSessionByIdAndKey st sessionId djKey with
      | error e => exact Or.inl rfl
      | ok S =>
        dsimp only
        split
        · exact Or.inl rfl
        · exact Or.inr ⟨s, S, rfl, rfl, rfl⟩

/-- C4 (amended). A DJ status change made with the non-empty session id and the
key of session `S` keeps the sessions, keeps the number and order of the
wishes, and leaves every wish of another session exactly as it was, for every
wish id and status value.  When no wish with the requested id belongs to `S`,
the call answers 404 wish-not-found if the status is one of `open`, `done`,
`rejected`, and 400 invalid-status otherwise. -/
theorem dj_setStatus_scoped (js : Builtins) (st : State) (idParam : String) (status : JsVal)
    (sid key : String) (S : Session) (hsid : sid ≠ "") (hkey : key ≠ "")
    (hS : IsSessionWithId st.sessions sid S) (hSkey : S.djKey = some key) :
    ((djSetStatus js idParam status (some sid) (some key) st).2.sessions = st.sessions ∧
      (djSetStatus js idParam status (some sid) (some key) st).2.wishes.length =
        st.wishes.length ∧
      ∀ (i : Nat) (w : Wish), st.wishes[i]? = some w → w.sessionId ≠ S.id →
        (djSetStatus js idParam status (some sid) (some key) st).2.wishes[i]? = some w) ∧
    ((∀ w ∈ st.wishes, hasId js idParam w = true → w.sessionId ≠ S.id) →
      (IsAllowedStatus status →
        djSetStatus js idParam status (some sid) (some key) st = (.fail 404 .wishNotFound, st)) ∧
      (¬ IsAllowedStatus status →
        djSetStatus js idParam status (some sid) (some key) st =
          (.fail 400 .invalidStatus, st))) := by
  have hauth : getSessionByIdAndKey st (some sid) (some key) = .ok S := by
    rw [getSessionByIdAndKey_ok]
    refine ⟨(findSession_eq_some_iff st sid S).mpr hS, ?_, hSkey⟩
    rw [hSkey]
    exact (truthyStr_some_iff key).mpr hkey
  constructor
  · rcases djSetStatus_state js idParam status (some sid) (some key) st with h | ⟨s, T, _, hT, h⟩
    · rw [h]
      exact ⟨rfl, rfl, fun i w hw _ => hw⟩
    · rw [hauth] at hT
      cases hT
      rw [h]
      refine ⟨rfl, updateFirst_length _ _ _, fun i w hw hne => ?_⟩
      apply updateFirst_getElem?_of_false _ _ _ i w hw
      simp [hne]
  · intro hnone
    have hkey : truthyStr (some key) = true := by
      obtain ⟨_, h1, h2⟩ := (getSessionByIdAndKey_ok st _ _ S).mp hauth
      rw [← h2]
      exact h1
    have hsid2 : truthyStr (some sid) = true := (truthyStr_some_iff sid).mpr hsid
    have hfind : st.wishes.find? (fun w => hasId js idParam w && w.sessionId == S.id) = none := by
      rw [List.find?_eq_none]
      intro w hw
      by_cases hid : hasId js idParam w = true
      · simp [hnone w hw hid]
      · simp [hid]
    constructor
    · intro hal
      obtain ⟨s, hs, _⟩ := allowedStatus_of_isAllowed status hal
      unfold djSetStatus
      simp only [hs, hsid2, hkey, hauth]
      unfold hasId at hfind
      simp [hfind]
    · intro hnal
      unfold djSetStatus
      rw [(allowedStatus_eq_none_iff status).mpr hnal]

/-- C4 (amended), at the example with two sessions whose wishes share the id 5:
the DJ of `ABC123` marks wish 5 done and the wish of `XYZ789` stays as it was;
for the id 7, which no wish has, the answer is 404. -/
theorem dj_setStatus_scoped_witness :
    (djSetStatus asciiBuiltins "5" (.str "done") (some "ABC123") (some "k3y")
        twoSessionState).2.wishes[0]? = twoSessionState.wishes[0]? ∧
    djSetStatus asciiBuiltins "7" (.str "done") (some "ABC123") (some "k3y") twoSessionState =
      (.fail 404 .wishNotFound, twoSessionState) :=
  ⟨(dj_setStatus_scoped asciiBuiltins twoSessionState "5" (.str "done") "ABC123" "k3y"
      demoSession (by decide) (by decide) ⟨rfl, [], _, rfl, by simp⟩ rfl).1.2.2 0 _ rfl
      (by decide),
    ((dj_setStatus_scoped asciiBuiltins twoSessionState "7" (.str "done") "ABC123" "k3y"
      demoSession (by decide) (by decide) ⟨rfl, [], _, rfl, by simp⟩ rfl).2 (by decide)).1
      (Or.inr (Or.inl rfl))⟩

/-- C4 as stated fails for a status outside the three allowed ones: the DJ of
`ABC123` asks for the status `played` on the id 7, which no wish has, and the
answer is 400 invalid-status, not 404 wish-not-found. -/
theorem dj_setStatus_notFound_counterexample :
    getSessionByIdAndKey twoSessionState (some "ABC123") (some "k3y") = .ok demoSession ∧
    twoSessionState.wishes.filter (hasId asciiBuiltins "7") = [] ∧
    djSetStatus asciiBuiltins "7" (.str "played") (some "ABC123") (some "k3y") twoSessionState =
      (.fail 400 .invalidStatus, twoSessionState) :=
  ⟨rfl, by decide, by decide⟩

/-- C5. The function `getSessionByIdAndKey` returns a session exactly when the
session with the given id exists, its key is set, non-empty and equal to the
supplied key, and then it returns that session; when the session exists and
its key is unset, empty or different the result is the invalid-key error; when
no session has the id the result is the session-not-found error.  With unique
session ids, the session with the id is any member of the list that carries
it. -/
theorem getSessionByIdAndKey_spec (st : State) (sid key : String) :
    (∀ S, getSessionByIdAndKey st (some sid) (some key) = .ok S ↔
      IsSessionWithId st.sessions sid S ∧ S.djKey = some key ∧ key ≠ "") ∧
    (∀ S, IsSessionWithId st.sessions sid S →
      (S.djKey = none ∨ S.djKey = some "" ∨ S.djKey ≠ some key) →
      getSessionByIdAndKey st (some sid) (some key) = .error .invalidKey) ∧
    ((∀ s ∈ st.sessions, s.id ≠ sid) →
      getSessionByIdAndKey st (some sid) (some key) = .error .sessionNotFound) ∧
    ((st.sessions.map (fun s => s.id)).Nodup →
      ∀ S, getSessionByIdAndKey st (some sid) (some key) = .ok S ↔
        S ∈ st.sessions ∧ S.id = sid ∧ S.djKey = some key ∧ key ≠ "") := by
  have hmain : ∀ S, getSessionByIdAndKey st (some sid) (some key) = .ok S ↔
      IsSessionWithId st.sessions sid S ∧ S.djKey = some key ∧ key ≠ "" := by
    intro S
    rw [getSessionByIdAndKey_ok, findSession_eq_some_iff]
    constructor
    · rintro ⟨h1, h2, h3⟩
      refine ⟨h1, h3, ?_⟩
      rw [h3] at h2
      exact (truthyStr_some_iff key).mp h2
    · rintro ⟨h1, h2, h3⟩
      refine ⟨h1, ?_, h2⟩
      rw [h2]
      exact (truthyStr_some_iff key).mpr h3
  refine ⟨hmain, ?_, ?_, ?_⟩
  · intro S hS hkey
    have hf := (findSession_eq_some_iff st sid S).mpr hS
    unfold getSessionByIdAndKey
    rw [hf]
    rcases hkey with h | h | h
    · simp [h, truthyStr]
    · simp [h, truthyStr]
    · simp [h]
  · intro hnone
    have hf := (findSession_eq_none_iff st sid).mpr hnone
    unfold getSessionByIdAndKey
    rw [hf]
  · intro hnodup S
    rw [hmain, isSessionWithId_unique st.sessions sid S hnodup, and_assoc]

/-- C5, at the example with two sessions: the pair of `ABC123` and its key
returns that session, the key of the other session is refused, and an unknown
id is not found. -/
theorem getSessionByIdAndKey_spec_witness :
    getSessionByIdAndKey twoSessionState (some "ABC123") (some "k3y") = .ok demoSession ∧
    getSessionByIdAndKey twoSessionState (some "ABC123") (some "0ther") = .error .invalidKey ∧
    getSessionByIdAndKey twoSessionState (some "NOSUCH") (some "k3y") =
      .error .sessionNotFound :=
  ⟨((getSessionByIdAndKey_spec twoSessionState "ABC123" "k3y").2.2.2 (by decide) demoSession).mpr
      ⟨by decide, rfl, rfl, by decide⟩,
    (getSessionByIdAndKey_spec twoSessionState "ABC123" "0ther").2.1 demoSession
      ⟨rfl, [], _, rfl, by simp⟩ (Or.inr (Or.inr (by decide))),
    (getSessionByIdAndKey_spec twoSessionState "NOSUCH" "k3y").2.2.1 (by decide)⟩

theorem getSessionByIdAndKey_error_cases (st : State) (sessionId djKey : Option String) :
    (findSession st sessionId = none →
      getSessionByIdAndKey st sessionId djKey = .error .sessionNotFound) ∧
    (∀ S, findSession st sessionId = some S → S.djKey ≠ djKey →
      getSessionByIdAndKey st sessionId djKey = .error .invalidKey) := by
  constructor
  · intro h
    unfold getSessionByIdAndKey
    rw [h]
  · intro S h hk
    unfold getSessionByIdAndKey
    rw [h]
    simp [hk]

/-- The three DJ handlers answer an error of the key check alike. -/
theorem dj_handlers_of_error (js : Builtins) (st : State) (sid key : String) (idParam : String)
    (status : JsVal) (hstatus : IsAllowedStatus status) (hsid : sid ≠ "") (hkey : key ≠ "")
    (e : Message) (he : getSessionByIdAndKey st (some sid) (some key) = .error e) :
    djGetSession (some sid) (some key) st = (.fail 403 e, st) ∧
    djListWishes (some sid) (some key) st = (.fail 403 e, st) ∧
    djSetStatus js idParam status (some sid) (some key) st = (.fail 403 e, st) := by
  obtain ⟨s, hs, _⟩ := allowedStatus_of_isAllowed status hstatus
  have h1 := (truthyStr_some_iff sid).mpr hsid
  have h2 := (truthyStr_some_iff key).mpr hkey
  refine ⟨?_, ?_, ?_⟩
  · unfold djGetSession
    simp [h1, h2, he]
  · unfold djListWishes
    simp [h1, h2, he]
  · unfold djSetStatus
    simp [hs, h1, h2, he]

/-- C6 (amended). For the three DJ handlers (session, wishes, wish status with
an allowed status value): an absent or empty session id or key is answered
with status 400; a present key that is not the key of the existing session
with status 403 and the invalid-key message; a session id that no session
has, with a key supplied, with the session-not-found message under the same
status 403.  The state is unchanged in every case. -/
theorem dj_gate_failures (js : Builtins) (st : State) (idParam : String) (status : JsVal)
    (hstatus : IsAllowedStatus status) :
    (∀ sid key : Option String, truthyStr sid = false ∨ truthyStr key = false →
      djGetSession sid key st = (.fail 400 .credentialsRequired, st) ∧
      djListWishes sid key st = (.fail 400 .credentialsRequired, st) ∧
      djSetStatus js idParam status sid key st = (.fail 400 .credentialsRequired, st)) ∧
    (∀ (sid key : String) (S : Session), sid ≠ "" → key ≠ "" →
      IsSessionWithId st.sessions sid S → S.djKey ≠ some key →
      djGetSession (some sid) (some key) st = (.fail 403 .invalidKey, st) ∧
      djListWishes (some sid) (some key) st = (.fail 403 .invalidKey, st) ∧
      djSetStatus js idParam status (some sid) (some key) st = (.fail 403 .invalidKey, st)) ∧
    (∀ sid key : String, sid ≠ "" → key ≠ "" → (∀ s ∈ st.sessions, s.id ≠ sid) →
      djGetSession (some sid) (some key) st = (.fail 403 .sessionNotFound, st) ∧
      djListWishes (some sid) (some key) st = (.fail 403 .sessionNotFound, st) ∧
      djSetStatus js idParam status (some sid) (some key) st =
        (.fail 403 .sessionNotFound, st)) := by
  refine ⟨?_, ?_, ?_⟩
  · intro sid key h
    obtain ⟨s, hs, _⟩ := allowedStatus_of_isAllowed status hstatus
    have hc : (!truthyStr sid || !truthyStr key) = true := by
      rcases h with h | h <;> simp [h]
    refine ⟨?_, ?_, ?_⟩
    · unfold djGetSession
      rw [if_pos hc]
    · unfold djListWishes
      rw [if_pos hc]
    · unfold djSetStatus
      simp only [hs]
      rw [if_pos hc]
  · intro sid key S hsid hkey hS hne
    exact dj_handlers_of_error js st sid key idParam status hstatus hsid hkey _
      ((getSessionByIdAndKey_error_cases st (some sid) (some key)).2 S
        ((findSession_eq_some_iff st sid S).mpr hS) hne)
  · intro sid key hsid hkey hnone
    exact dj_handlers_of_error js st sid key idParam status hstatus hsid hkey _
      ((getSessionByIdAndKey_error_cases st (some sid) (some key)).1
        ((findSession_eq_none_iff st sid).mpr hnone))

/-- C6 (amended), at the example with two sessions: without a session id the
wish list is refused with 400, and with the key of the other session with 403
and the invalid-key message. -/
theorem dj_gate_failures_witness :
    djListWishes none (some "k3y") twoSessionState =
      (.fail 400 .credentialsRequired, twoSessionState) ∧
    djListWishes (some "ABC123") (some "0ther") twoSessionState =
      (.fail 403 .invalidKey, twoSessionState) :=
  ⟨((dj_gate_failures asciiBuiltins twoSessionState "5" (.str "done") (Or.inr (Or.inl rfl))).1
      none (some "k3y") (Or.inl rfl)).2.1,
    ((dj_gate_failures asciiBuiltins twoSessionState "5" (.str "done") (Or.inr (Or.inl rfl))).2.1
      "ABC123" "0ther" demoSession (by decide) (by decide) ⟨rfl, [], _, rfl, by simp⟩
      (by decide)).2.1⟩

/-- C6 as stated fails: for a session id that no session has, with a key
supplied, each of the three DJ handlers answers with status 403, the status of
the wrong-key case, and not with a 400 or 404. -/
theorem dj_gate_unknown_session_counterexample :
    twoSessionState.sessions.filter (fun s => s.id == "NOSUCH") = [] ∧
    djGetSession (some "NOSUCH") (some "k3y") twoSessionState =
      (.fail 403 .sessionNotFound, twoSessionState) ∧
    djListWishes (some "NOSUCH") (some "k3y") twoSessionState =
      (.fail 403 .sessionNotFound, twoSessionState) ∧
    djSetStatus asciiBuiltins "5" (.str "done") (some "NOSUCH") (some "k3y") twoSessionState =
      (.fail 403 .sessionNotFound, twoSessionState) ∧
    djListWishes (some "ABC123") (some "wrong") twoSessionState =
      (.fail 403 .invalidKey, twoSessionState) := by
  decide

/-! ## Deleting a session -/

theorem length_filter_ne_add_countP (ws : List Wish) (id : String) :
    (ws.filter (fun w => decide (w.sessionId ≠ id))).length +
      ws.countP (fun w => decide (w.sessionId = id)) = ws.length := by
  induction ws with
  | nil => rfl
  | cons w ws ih =>
    by_cases h : w.sessionId = id
    · simp only [h, ne_eq, not_true_eq_false, decide_False, Bool.false_eq_true,
        not_false_eq_true, List.filter_cons_of_neg, decide_True, List.countP_cons_of_pos,
        List.length_cons]
      simp only [ne_eq] at ih
      omega
    · simp only [ne_eq, h, not_false_eq_true, decide_True, List.filter_cons_of_pos,
        List.length_cons, decide_False, Bool.false_eq_true, List.countP_cons_of_neg]
      simp only [ne_eq] at ih
      omega

/-- C7. Deleting an id that a session carries removes every session with that
id and exactly the wishes of that id, keeps all other sessions and wishes in
their order, returns the session with the id and reports the number of removed
wishes; deleting an id that no session carries is answered with 404 and
changes nothing. -/
theorem deleteSession_spec (st : State) (id : String) :
    ((∃ s ∈ st.sessions, s.id = id) →
      ∃ removed : Session, IsSessionWithId st.sessions id removed ∧
        deleteSession id st =
          (.ok (.deleted removed (st.wishes.countP (fun w => decide (w.sessionId = id)) : Nat)),
            { sessions := st.sessions.filter (fun s => decide (s.id ≠ id))
              wishes := st.wishes.filter (fun w => decide (w.sessionId ≠ id)) }) ∧
        (deleteSession id st).2.sessions.Sublist st.sessions ∧
        (deleteSession id st).2.wishes.Sublist st.wishes ∧
        (∀ s, s ∈ (deleteSession id st).2.sessions ↔ s ∈ st.sessions ∧ s.id ≠ id) ∧
        (∀ w, w ∈ (deleteSession id st).2.wishes ↔ w ∈ st.wishes ∧ w.sessionId ≠ id)) ∧
    ((∀ s ∈ st.sessions, s.id ≠ id) →
      deleteSession id st = (.fail 404 .sessionNotFound, st)) := by
  have hfs : (fun s : Session => s.id != id) = (fun s => decide (s.id ≠ id)) := by
    funext s
    rw [Bool.eq_iff_iff]
    simp
  have hfw : (fun w : Wish => w.sessionId != id) = (fun w => decide (w.sessionId ≠ id)) := by
    funext w
    rw [Bool.eq_iff_iff]
    simp
  constructor
  · rintro ⟨s, hs, hid⟩
    cases hf : findSession st (some id) with
    | none => exact absurd hid ((findSession_eq_none_iff st id).mp hf s hs)
    | some removed =>
      have hcount : ((st.wishes.length : Int) -
          ((st.wishes.filter (fun w => decide (w.sessionId ≠ id))).length : Int)) =
          ((st.wishes.countP (fun w => decide (w.sessionId = id)) : Nat) : Int) := by
        have h1 := length_filter_ne_add_countP st.wishes id
        omega
      have heq : deleteSession id st =
          (.ok (.deleted removed (st.wishes.countP (fun w => decide (w.sessionId = id)) : Nat)),
            { sessions := st.sessions.filter (fun s => decide (s.id ≠ id))
              wishes := st.wishes.filter (fun w => decide (w.sessionId ≠ id)) }) := by
        unfold deleteSession
        rw [hf]
        simp only [hfs, hfw, hcount]
      refine ⟨removed, (findSession_eq_some_iff st id removed).mp hf, heq, ?_, ?_, ?_, ?_⟩
      · rw [heq]
        exact List.filter_sublist _
      · rw [heq]
        exact List.filter_sublist _
      · intro x
        rw [heq]
        simp [List.mem_filter]
      · intro x
        rw [heq]
        simp [List.mem_filter]
  · intro hnone
    unfold deleteSession
    rw [(findSession_eq_none_iff st id).mpr hnone]

/-- C7, at the example with two sessions: deleting `XYZ789` leaves the session
`ABC123` and its wish, and reports one removed wish. -/
theorem deleteSession_spec_witness :
    ∃ removed : Session, IsSessionWithId twoSessionState.sessions "XYZ789" removed ∧
      deleteSession "XYZ789" twoSessionState =
        (.ok (.deleted removed
            (twoSessionState.wishes.countP (fun w => decide (w.sessionId = "XYZ789")) : Nat)),
          { sessions := twoSessionState.sessions.filter (fun s => decide (s.id ≠ "XYZ789"))
            wishes := twoSessionState.wishes.filter (fun w => decide (w.sessionId ≠ "XYZ789")) }) :=
  ((deleteSession_spec twoSessionState "XYZ789").1
    ⟨{ demoSession with id := "XYZ789", djKey := some "0ther" }, by decide, rfl⟩).imp
    (fun _ h => ⟨h.1, h.2.1⟩)

/-! ## Status values -/

theorem mem_updateFirst {α : Type} (p : α → Bool) (f : α → α) (l : List α) (x : α)
    (h : x ∈ updateFirst p f l) : x ∈ l ∨ ∃ y ∈ l, x = f y := by
  induction l with
  | nil => simp [updateFirst] at h
  | cons y ys ih =>
    unfold updateFirst at h
    split at h
    · rcases List.mem_cons.mp h with h1 | h1
      · exact Or.inr ⟨y, List.mem_cons_self _ _, h1⟩
      · exact Or.inl (List.mem_cons_of_mem _ h1)
    · rcases List.mem_cons.mp h with h1 | h1
      · exact Or.inl (h1 ▸ List.mem_cons_self _ _)
      · rcases ih h1 with h2 | ⟨z, hz, hx⟩
        · exact Or.inl (List.mem_cons_of_mem _ h2)
        · exact Or.inr ⟨z, List.mem_cons_of_mem _ hz, hx⟩

/-- The state after an admin status change: the old state, or the old state
with the status of the first wish with the requested id replaced by an allowed
status. -/
theorem adminSetStatus_state (js : Builtins) (idParam : String) (status : JsVal) (st : State) :
    (adminSetStatus js idParam status st).2 = st ∨
    ∃ s, allowedStatus status = some s ∧
      (adminSetStatus js idParam status st).2 =
        { st with wishes := (updateFirst (fun w => hasId js idParam w)
            (fun w => { w with status := s }) st.wishes) } := by
  unfold adminSetStatus
  cases hs : allowedStatus status with
  | none => exact Or.inl rfl
  | some s =>
    dsimp only
    split
    · exact Or.inl rfl
    · exact Or.inr ⟨s, rfl, rfl⟩

/-- What one request can do to the wishes: nothing, remove the wishes of one
session, append one open wish, or give one wish an allowed status. -/
theorem handle_wishes (js : Builtins) (req : Request) (st : State) :
    (handle js req st).2.wishes = st.wishes ∨
    (∃ id : String, (handle js req st).2.wishes =
      st.wishes.filter (fun w => w.sessionId != id)) ∨
    (∃ w : Wish, w.status = "open" ∧ (handle js req st).2.wishes = st.wishes ++ [w]) ∨
    (∃ (p : Wish → Bool) (s : String), (s = "open" ∨ s = "done" ∨ s = "rejected") ∧
      (handle js req st).2.wishes =
        updateFirst p (fun w => { w with status := s }) st.wishes) := by
  cases req with
  | createSession draw nowIso body =>
    left
    simp only [handle, createSession]
    split
    · rfl
    · split <;> rfl
  | test => exact Or.inl rfl
  | listSessions => exact Or.inl rfl
  | getSession id =>
    left
    simp only [handle, getSession]
    split <;> rfl
  | updateSettings id body =>
    left
    simp only [handle, updateSettings]
    split <;> rfl
  | setActive id active =>
    left
    simp only [handle, setActive]
    split <;> rfl
  | deleteSession id =>
    simp only [handle, deleteSession]
    split
    · exact Or.inl rfl
    · exact Or.inr (Or.inl ⟨id, rfl⟩)
  | submitWish now nowIso body =>
    simp only [handle]
    rcases submitWish_cases js now nowIso body st with ⟨code, msg, h⟩ | ⟨S, _, h⟩
    · rw [h]
      exact Or.inl rfl
    · rw [h]
      exact Or.inr (Or.inr (Or.inl ⟨_, rfl, rfl⟩))
  | listWishes sessionId =>
    left
    simp only [handle, listWishes]
    split <;> rfl
  | adminSetStatus idParam status =>
    simp only [handle]
    rcases adminSetStatus_state js idParam status st with h | ⟨s, hs, h⟩
    · rw [h]
      exact Or.inl rfl
    · rw [h]
      exact Or.inr (Or.inr (Or.inr ⟨_, s, ((allowedStatus_eq_some_iff status s).mp hs).2, rfl⟩))
  | djGetSession sessionId djKey =>
    left
    simp only [handle, djGetSession]
    split
    · rfl
    · split <;> rfl
  | djListWishes sessionId djKey =>
    left
    simp only [handle, djListWishes]
    split
    · rfl
    · split <;> rfl
  | djSetStatus idParam status sessionId djKey =>
    simp only [handle]
    rcases djSetStatus_state js idParam status sessionId djKey st with h | ⟨s, S, hs, _, h⟩
    · rw [h]
      exact Or.inl rfl
    · rw [h]
      exact Or.inr (Or.inr (Or.inr ⟨_, s, ((allowedStatus_eq_some_iff status s).mp hs).2, rfl⟩))

/-- C8. A status value outside `open`, `done`, `rejected` is rejected by both
status handlers with 400 invalid-status, whatever the wish id and the
credentials, and the state stays as it was; and when every wish has one of the
three statuses, it still does after any request. -/
theorem setStatus_invalid_rejected (js : Builtins) (st : State) :
    (∀ (status : JsVal) (idParam : String) (sessionId djKey : Option String),
      ¬ IsAllowedStatus status →
      adminSetStatus js idParam status st = (.fail 400 .invalidStatus, st) ∧
      djSetStatus js idParam status sessionId djKey st = (.fail 400 .invalidStatus, st)) ∧
    (StatusValid st → ∀ req : Request, StatusValid (handle js req st).2) := by
  constructor
  · intro status idParam sessionId djKey hna
    have hnone := (allowedStatus_eq_none_iff status).mpr hna
    constructor
    · unfold adminSetStatus
      rw [hnone]
    · unfold djSetStatus
      rw [hnone]
  · intro hvalid req w hw
    rcases handle_wishes js req st with h | ⟨id, h⟩ | ⟨v, hv, h⟩ | ⟨p, s, hs, h⟩
    · rw [h] at hw
      exact hvalid w hw
    · rw [h] at hw
      exact hvalid w (List.mem_of_mem_filter hw)
    · rw [h] at hw
      rcases List.mem_append.mp hw with h1 | h1
      · exact hvalid w h1
      · simp only [List.mem_singleton] at h1
        rw [h1]
        exact Or.inl hv
    · rw [h] at hw
      rcases mem_updateFirst _ _ _ _ hw with h1 | ⟨y, _, h1⟩
      · exact hvalid w h1
      · rw [h1]
        exact hs

/-- C8, at the example with two sessions: the status `played` is rejected by
the admin handler, and the wishes still have valid statuses after the DJ of
`ABC123` marks wish 5 done. -/
theorem setStatus_invalid_rejected_witness :
    adminSetStatus asciiBuiltins "5" (.str "played") twoSessionState =
      (.fail 400 .invalidStatus, twoSessionState) ∧
    StatusValid (handle asciiBuiltins
      (.djSetStatus "5" (.str "done") (some "ABC123") (some "k3y")) twoSessionState).2 :=
  ⟨((setStatus_invalid_rejected asciiBuiltins twoSessionState).1 (.str "played") "5" none none
      (by unfold IsAllowedStatus; decide)).1,
    (setStatus_invalid_rejected asciiBuiltins twoSessionState).2
      (by unfold StatusValid; decide) _⟩

/-! ## Creating a session -/

/-- C9. Creating a session under a string name fails with 400 and appends
nothing when the name is empty or all whitespace; for every other name it
succeeds, appends exactly one session at the end, and the stored name is the
input with the leading and trailing whitespace removed. -/
theorem createSession_name (js : Builtins) (draw : Nat → Nat) (nowIso : String) (name : String)
    (maxWishesPerGuest requireName allowComment : JsVal) (st : State) :
    (isBlank name = true →
      createSession js draw nowIso ⟨some name, maxWishesPerGuest, requireName, allowComment⟩ st =
        (.fail 400 .sessionNameRequired, st)) ∧
    (isBlank name = false →
      ∃ s : Session,
        createSession js draw nowIso ⟨some name, maxWishesPerGuest, requireName, allowComment⟩
            st = (.ok (.session s), { st with sessions := st.sessions ++ [s] }) ∧
        s.name = jsTrim name ∧ IsTrimOf name s.name) := by
  constructor
  · intro hb
    have ht := (isBlank_iff_jsTrim name).mp hb
    unfold createSession
    simp [ht]
  · intro hb
    have ht := (isBlank_false_iff name).mp hb
    have hn : name ≠ "" := by
      intro h0
      apply ht
      rw [h0]
      exact jsTrim_empty
    refine ⟨{ id := generateSessionId draw
              name := jsTrim name
              active := some true
              createdAt := nowIso
              settings := some
                { maxWishesPerGuest := some (numberOrZero js maxWishesPerGuest)
                  requireName := some (flagOnCreate requireName)
                  allowComment := some (flagOnCreate allowComment) }
              djKey := some (generateDjKey (fun i => draw (6 + i))) },
      ?_, rfl, jsTrim_isTrimOf name⟩
    unfold createSession
    simp [ht, hn]

/-- C9, at the name ` Party `: the session is created and stored under
`Party`; the name of three blanks is refused. -/
theorem createSession_name_witness :
    (∃ s : Session,
      createSession asciiBuiltins (fun i => i) "t0" ⟨some " Party ", .undefined, .undefined,
        .undefined⟩ demoState = (.ok (.session s), { demoState with
          sessions := demoState.sessions ++ [s] }) ∧
      s.name = "Party") ∧
    createSession asciiBuiltins (fun i => i) "t0" ⟨some "   ", .undefined, .undefined,
      .undefined⟩ demoState = (.fail 400 .sessionNameRequired, demoState) :=
  ⟨((createSession_name asciiBuiltins (fun i => i) "t0" " Party " .undefined .undefined
      .undefined demoState).2 (by decide)).imp
      (fun _ h => ⟨h.1, h.2.1.trans (by decide)⟩),
    (createSession_name asciiBuiltins (fun i => i) "t0" "   " .undefined .undefined
      .undefined demoState).1 (by decide)⟩

/-! ## Errors leave the state alone -/

/-- C10. A request that is answered with an error leaves the sessions and the
wishes exactly as they were, for every handler and every input. -/
theorem handle_fail_unchanged (js : Builtins) (req : Request) (st : State) (status : Nat)
    (msg : Message) (h : (handle js req st).1 = .fail status msg) :
    (handle js req st).2 = st := by
  cases req with
  | createSession draw nowIso body =>
    simp only [handle, createSession] at h ⊢
    split
    · rfl
    · split
      · rfl
      · rename_i hn hb
        simp [hn, hb] at h
  | test => rfl
  | listSessions => rfl
  | getSession id =>
    simp only [handle, getSession]
    split <;> rfl
  | updateSettings id body =>
    simp only [handle, updateSettings] at h ⊢
    split
    · rfl
    · rename_i hf
      simp [hf] at h
  | setActive id active =>
    simp only [handle, setActive] at h ⊢
    split
    · rfl
    · rename_i hf
      simp [hf] at h
  | deleteSession id =>
    simp only [handle, deleteSession] at h ⊢
    split
    · rfl
    · rename_i hf
      simp [hf] at h
  | submitWish now nowIso body =>
    simp only [handle] at h ⊢
    rcases submitWish_cases js now nowIso body st with ⟨code, m, hs⟩ | ⟨S, _, hs⟩
    · rw [hs]
    · rw [hs] at h
      cases h
  | listWishes sessionId =>
    simp only [handle, listWishes]
    split <;> rfl
  | adminSetStatus idParam status1 =>
    simp only [handle, adminSetStatus] at h ⊢
    split
    · rfl
    · split
      · rfl
      · rename_i hs _ _ hf
        simp [hs, hf] at h
  | djGetSession sessionId djKey =>
    simp only [handle, djGetSession]
    split
    · rfl
    · split <;> rfl
  | djListWishes sessionId djKey =>
    simp only [handle, djListWishes]
    split
    · rfl
    · split <;> rfl
  | djSetStatus idParam status1 sessionId djKey =>
    simp only [handle, djSetStatus] at h ⊢
    split
    · rfl
    · split
      · rfl
      · split
        · rfl
        · split
          · rfl
          · simp_all

/-- C10, at the example state: the second wish of `dev1` is over the quota of
one, and the state after the rejected request is the state before it. -/
theorem handle_fail_unchanged_witness :
    (handle asciiBuiltins (.submitWish 6 "t6" demoWish)
      (handle asciiBuiltins (.submitWish 5 "t5" demoWish) demoState).2).2 =
    (handle asciiBuiltins (.submitWish 5 "t5" demoWish) demoState).2 :=
  handle_fail_unchanged asciiBuiltins (.submitWish 6 "t6" demoWish)
    (handle asciiBuiltins (.submitWish 5 "t5" demoWish) demoState).2 400
    (.quotaExceeded (.fin 1)) (by decide)

/-! ## Stored title and artist -/

/-- The title and the artist of an accepted wish are the trimmed inputs. -/
theorem submitWish_stored_trimmed (js : Builtins) (now : Int) (nowIso : String) (body : WishInput)
    (st st1 : State) (w : Wish) (h : submitWish js now nowIso body st = (.ok (.wish w), st1)) :
    st1.wishes = st.wishes ++ [w] ∧ IsTrimOf (orEmpty body.title) w.title ∧
      IsTrimOf (orEmpty body.artist) w.artist := by
  rcases submitWish_cases js now nowIso body st with ⟨code, msg, hf⟩ | ⟨S, _, hs⟩
  · rw [hf] at h
    cases h
  · rw [hs] at h
    simp only [Prod.mk.injEq, Response.ok.injEq, Payload.wish.injEq] at h
    obtain ⟨hw, hst⟩ := h
    subst hw
    subst hst
    exact ⟨rfl, jsTrim_isTrimOf _, jsTrim_isTrimOf _⟩

/-- C11. At the title of one blank the handler accepts the submission: the
required-field check tests the untrimmed title, and the wish is stored with
the empty title that trimming leaves. -/
theorem submit_blank_title_accepted :
    submitWish asciiBuiltins 5 "t5" blankTitleWish demoState =
      (.ok (.wish { id := 5, sessionId := "ABC123", sessionName := "Party", name := some "Alice"
                    title := "", artist := "Artist A", comment := "", deviceId := some "dev1"
                    status := "open", createdAt := "t5" }),
        { demoState with wishes :=
            [{ id := 5, sessionId := "ABC123", sessionName := "Party", name := some "Alice"
               title := "", artist := "Artist A", comment := "", deviceId := some "dev1"
               status := "open", createdAt := "t5" }] }) := by
  decide

/-! ## The stored limit -/

theorem updateFirst_split {α : Type} (p : α → Bool) (f : α → α) (before after : List α) (x : α)
    (hbefore : ∀ a ∈ before, p a = false) (hx : p x = true) :
    updateFirst p f (before ++ x :: after) = before ++ f x :: after := by
  induction before with
  | nil => simp [updateFirst, hx]
  | cons a as ih =>
    have ha : p a = false := hbefore a (List.mem_cons_self _ _)
    have ih2 := ih (fun b hb => hbefore b (List.mem_cons_of_mem _ hb))
    simp [updateFirst, ha, ih2]

/-- The settings handler on an existing session: the session with the id gets
the merged settings, in place. -/
theorem updateSettings_existing (js : Builtins) (id : String) (body : SettingsInput) (st : State)
    (S : Session) (before after : List Session) (hst : st.sessions = before ++ S :: after)
    (hid : S.id = id) (hbefore : ∀ s ∈ before, s.id ≠ id) :
    updateSettings js id body st =
      (.ok (.session { S with settings := some (mergeSettings js body S.settings) }),
        { st with sessions :=
            before ++ { S with settings := some (mergeSettings js body S.settings) } :: after }) := by
  have hfind : findSession st (some id) = some S :=
    (findSession_eq_some_iff st id S).mpr ⟨hid, before, after, hst, hbefore⟩
  unfold updateSettings
  rw [hfind]
  simp only
  rw [hst, updateFirst_split _ _ before after S (by intro a ha; simpa using hbefore a ha)
    (by simpa using hid)]

theorem numberOrZero_cases (js : Builtins) (v : JsVal) :
    numberOrZero js v ≠ .nan ∧
    ((jsNumber js v = .nan ∨ jsNumber js v = .fin 0) → numberOrZero js v = .fin 0) ∧
    (jsNumber js v ≠ .nan → jsNumber js v ≠ .fin 0 → numberOrZero js v = jsNumber js v) := by
  unfold numberOrZero
  cases h : jsNumber js v with
  | nan => simp [JsNum.truthy]
  | fin q =>
    by_cases hq : q = 0
    · simp [JsNum.truthy, hq]
    · simp [JsNum.truthy, hq]
  | posInf => simp [JsNum.truthy]
  | negInf => simp [JsNum.truthy]

theorem mergeSettings_fields (js : Builtins) (body : SettingsInput) (old : Option Settings) :
    (mergeSettings js body old).maxWishesPerGuest =
      (if body.maxWishesPerGuest = .undefined then (old.getD Settings.empty).maxWishesPerGuest
        else some (numberOrZero js body.maxWishesPerGuest)) ∧
    (mergeSettings js body old).requireName =
      (if body.requireName = .undefined then (old.getD Settings.empty).requireName
        else some (flagOnUpdate body.requireName)) ∧
    (mergeSettings js body old).allowComment =
      (if body.allowComment = .undefined then (old.getD Settings.empty).allowComment
        else some (flagOnUpdate body.allowComment)) := by
  unfold mergeSettings
  by_cases h1 : body.maxWishesPerGuest = .undefined <;>
    by_cases h2 : body.requireName = .undefined <;>
    by_cases h3 : body.allowComment = .undefined <;> simp [h1, h2, h3]

/-- C12 (amended). The limit that session creation stores, and that the
settings update stores when the field is provided, is `Number(input) || 0`: a
number that is never `NaN`, equal to `Number(input)` when that is a number
other than zero, whatever its sign and whether or not it is an integer, and
equal to 0 when `Number(input)` is `NaN` or zero, as it is for the inputs
`undefined`, `null`, `false`, `0`, `NaN` and the empty string. -/
theorem maxWishes_stored (js : Builtins) (v : JsVal) :
    (∀ (draw : Nat → Nat) (nowIso name : String) (requireName allowComment : JsVal) (st : State),
      isBlank name = false →
      ∃ (s : Session) (stg : Settings),
        createSession js draw nowIso ⟨some name, v, requireName, allowComment⟩ st =
          (.ok (.session s), { st with sessions := st.sessions ++ [s] }) ∧
        s.settings = some stg ∧ stg.maxWishesPerGuest = some (numberOrZero js v)) ∧
    (∀ (id : String) (requireName allowComment : JsVal) (st : State) (S : Session),
      v ≠ .undefined → IsSessionWithId st.sessions id S →
      ∃ (s : Session) (stg : Settings) (before after : List Session),
        st.sessions = before ++ S :: after ∧
        updateSettings js id ⟨v, requireName, allowComment⟩ st =
          (.ok (.session s), { st with sessions := before ++ s :: after }) ∧
        s.settings = some stg ∧ stg.maxWishesPerGuest = some (numberOrZero js v)) ∧
    numberOrZero js v ≠ .nan ∧
    ((jsNumber js v = .nan ∨ jsNumber js v = .fin 0) → numberOrZero js v = .fin 0) ∧
    (jsNumber js v ≠ .nan → jsNumber js v ≠ .fin 0 → numberOrZero js v = jsNumber js v) ∧
    ((v = .undefined ∨ v = .null ∨ v = .bool false ∨ v = .num (.fin 0) ∨ v = .num .nan ∨
        (v = .str "" ∧ js.stringToNumber "" = .fin 0)) →
      numberOrZero js v = .fin 0) := by
  obtain ⟨hn1, hn2, hn3⟩ := numberOrZero_cases js v
  refine ⟨?_, ?_, hn1, hn2, hn3, ?_⟩
  · intro draw nowIso name rn ac st hb
    have ht := (isBlank_false_iff name).mp hb
    have hne : name ≠ "" := by
      intro h0
      apply ht
      rw [h0]
      exact jsTrim_empty
    refine ⟨{ id := generateSessionId draw
              name := jsTrim name
              active := some true
              createdAt := nowIso
              settings := some
                { maxWishesPerGuest := some (numberOrZero js v)
                  requireName := some (flagOnCreate rn)
                  allowComment := some (flagOnCreate ac) }
              djKey := some (generateDjKey (fun i => draw (6 + i))) },
      { maxWishesPerGuest := some (numberOrZero js v)
        requireName := some (flagOnCreate rn)
        allowComment := some (flagOnCreate ac) }, ?_, rfl, rfl⟩
    unfold createSession
    simp [ht, hne]
  · intro id rn ac st S hv hS
    obtain ⟨hid, before, after, hst, hbefore⟩ := hS
    refine ⟨_, _, before, after, hst,
      updateSettings_existing js id ⟨v, rn, ac⟩ st S before after hst hid hbefore, rfl, ?_⟩
    rw [(mergeSettings_fields js ⟨v, rn, ac⟩ S.settings).1]
    simp [hv]
  · intro h
    apply hn2
    rcases h with h | h | h | h | h | ⟨h, h0⟩
    · subst h; simp [jsNumber]
    · subst h; simp [jsNumber]
    · subst h; simp [jsNumber]
    · subst h; simp [jsNumber]
    · subst h; simp [jsNumber]
    · subst h; simp [jsNumber, h0]

/-- C12 (amended), at the example session: updating the limit with the number 3
stores 3, and creating a session without a limit stores 0. -/
theorem maxWishes_stored_witness :
    (∃ (s : Session) (stg : Settings) (before after : List Session),
      demoState.sessions = before ++ demoSession :: after ∧
      updateSettings asciiBuiltins "ABC123" ⟨.num (.fin 3), .undefined, .undefined⟩ demoState =
        (.ok (.session s), { demoState with sessions := before ++ s :: after }) ∧
      s.settings = some stg ∧
      stg.maxWishesPerGuest = some (numberOrZero asciiBuiltins (.num (.fin 3)))) ∧
    numberOrZero asciiBuiltins .undefined = .fin 0 :=
  ⟨(maxWishes_stored asciiBuiltins (.num (.fin 3))).2.1 "ABC123" .undefined .undefined demoState
      demoSession (by decide) ⟨rfl, [], [], rfl, by simp⟩,
    (maxWishes_stored asciiBuiltins .undefined).2.2.2.2.2 (Or.inl rfl)⟩

/-- C12 as stated fails: the creation input `-5` is stored as the negative
number -5, and the input `1.5` as the fraction 3/2, which is not an integer. -/
theorem maxWishes_not_nonneg_integer_counterexample :
    ((createSession asciiBuiltins (fun i => i) "t0"
        ⟨some "Party", .num (.fin (-5)), .undefined, .undefined⟩ ⟨[], []⟩).2.sessions.map
      (fun s => s.settings.bind (fun stg => stg.maxWishesPerGuest)) = [some (.fin (-5))] ∧
      ¬ IsNonNegInteger (.fin (-5))) ∧
    ((createSession asciiBuiltins (fun i => i) "t0"
        ⟨some "Party", .num (.fin (3 / 2)), .undefined, .undefined⟩ ⟨[], []⟩).2.sessions.map
      (fun s => s.settings.bind (fun stg => stg.maxWishesPerGuest)) = [some (.fin (3 / 2))] ∧
      ¬ IsNonNegInteger (.fin (3 / 2))) := by
  have h : jsTrim "Party" = "Party" := by decide
  refine ⟨⟨by decide, ?_⟩, ⟨?_, ?_⟩⟩
  · rintro ⟨n, hn⟩
    simp only [JsNum.fin.injEq] at hn
    have h0 : (0 : ℚ) ≤ (n : ℚ) := Nat.cast_nonneg n
    rw [← hn] at h0
    norm_num at h0
  · simp [createSession, numberOrZero, jsNumber, JsNum.truthy, h]
  · rintro ⟨n, hn⟩
    simp only [JsNum.fin.injEq] at hn
    have h2 : (3 : ℚ) = 2 * (n : ℚ) := by linarith
    have h3 : (3 : ℕ) = 2 * n := by exact_mod_cast h2
    omega

/-! ## Updating the settings -/

theorem flagOnUpdate_cases (v : JsVal) :
    (∀ b, v = .bool b → flagOnUpdate v = b) ∧
    (v = .str "true" → flagOnUpdate v = true) ∧
    ((∀ b, v ≠ .bool b) → v ≠ .str "true" → flagOnUpdate v = false) := by
  refine ⟨?_, ?_, ?_⟩
  · rintro b rfl
    rfl
  · rintro rfl
    rfl
  · intro h1 h2
    cases v with
    | bool b => exact absurd rfl (h1 b)
    | str s =>
      have hs : s ≠ "true" := fun h => h2 (by rw [h])
      simp [flagOnUpdate, hs]
    | undefined => rfl
    | null => rfl
    | num n => rfl
    | object t => rfl

/-- C13. The settings update on an existing session replaces that session, in
place, by the same session with merged settings and changes nothing else: no
other session, no other field of the session, no wish.  In the merged settings
a field that the input leaves out keeps its value; a provided limit becomes
`Number(input) || 0`; a provided flag becomes the input when that is a
boolean, `true` for the string `true`, and `false` for every other value. -/
theorem updateSettings_merges (js : Builtins) (id : String) (body : SettingsInput) (st : State)
    (S : Session) (hS : IsSessionWithId st.sessions id S) :
    ∃ (before after : List Session) (merged : Settings),
      st.sessions = before ++ S :: after ∧
      updateSettings js id body st =
        (.ok (.session { S with settings := some merged }),
          { sessions := before ++ { S with settings := some merged } :: after
            wishes := st.wishes }) ∧
      (body.maxWishesPerGuest = .undefined →
        merged.maxWishesPerGuest = (S.settings.getD Settings.empty).maxWishesPerGuest) ∧
      (body.maxWishesPerGuest ≠ .undefined →
        merged.maxWishesPerGuest = some (numberOrZero js body.maxWishesPerGuest)) ∧
      (body.requireName = .undefined →
        merged.requireName = (S.settings.getD Settings.empty).requireName) ∧
      (∀ b, body.requireName = .bool b → merged.requireName = some b) ∧
      (body.requireName = .str "true" → merged.requireName = some true) ∧
      (body.requireName ≠ .undefined → (∀ b, body.requireName ≠ .bool b) →
        body.requireName ≠ .str "true" → merged.requireName = some false) ∧
      (body.allowComment = .undefined →
        merged.allowComment = (S.settings.getD Settings.empty).allowComment) ∧
      (∀ b, body.allowComment = .bool b → merged.allowComment = some b) ∧
      (body.allowComment = .str "true" → merged.allowComment = some true) ∧
      (body.allowComment ≠ .undefined → (∀ b, body.allowComment ≠ .bool b) →
        body.allowComment ≠ .str "true" → merged.allowComment = some false) := by
  obtain ⟨hid, before, after, hst, hbefore⟩ := hS
  obtain ⟨hm, hr, ha⟩ := mergeSettings_fields js body S.settings
  obtain ⟨hr1, hr2, hr3⟩ := flagOnUpdate_cases body.requireName
  obtain ⟨ha1, ha2, ha3⟩ := flagOnUpdate_cases body.allowComment
  refine ⟨before, after, mergeSettings js body S.settings, hst,
    updateSettings_existing js id body st S before after hst hid hbefore,
    ?_, ?_, ?_, ?_, ?_, ?_, ?_, ?_, ?_, ?_⟩
  · intro h
    rw [hm, if_pos h]
  · intro h
    rw [hm, if_neg h]
  · intro h
    rw [hr, if_pos h]
  · intro b h
    rw [hr, if_neg (by rw [h]; simp), hr1 b h]
  · intro h
    rw [hr, if_neg (by rw [h]; simp), hr2 h]
  · intro h1 h2 h3
    rw [hr, if_neg h1, hr3 h2 h3]
  · intro h
    rw [ha, if_pos h]
  · intro b h
    rw [ha, if_neg (by rw [h]; simp), ha1 b h]
  · intro h
    rw [ha, if_neg (by rw [h]; simp), ha2 h]
  · intro h1 h2 h3
    rw [ha, if_neg h1, ha3 h2 h3]

/-- C13, at the example session: the update that provides only
`requireName: 'true'` stores `requireName = true` and keeps the limit 1 and
the comment flag. -/
theorem updateSettings_merges_witness :
    ∃ (before after : List Session) (merged : Settings),
      demoState.sessions = before ++ demoSession :: after ∧
      updateSettings asciiBuiltins "ABC123" ⟨.undefined, .str "true", .undefined⟩ demoState =
        (.ok (.session { demoSession with settings := some merged }),
          { sessions := before ++ { demoSession with settings := some merged } :: after
            wishes := demoState.wishes }) ∧
      merged.maxWishesPerGuest = some (.fin 1) ∧ merged.requireName = some true ∧
      merged.allowComment = some true :=
  (updateSettings_merges asciiBuiltins "ABC123" ⟨.undefined, .str "true", .undefined⟩ demoState
    demoSession ⟨rfl, [], [], rfl, by simp⟩).imp fun _ h => h.imp fun _ h => h.imp fun _ h =>
      ⟨h.1, h.2.1, h.2.2.1 rfl, h.2.2.2.2.2.2.1 rfl, h.2.2.2.2.2.2.2.2.1 rfl⟩

/-! ## Identity fields of a session -/

/-- What one request can do to the sessions: nothing, append one session,
remove the sessions of one id, or change the settings or the active flag of
one session in place. -/
theorem handle_sessions (js : Builtins) (req : Request) (st : State) :
    (handle js req st).2.sessions = st.sessions ∨
    (∃ (s : Session) (draw : Nat → Nat) (nowIso : String) (body : SessionInput),
      req = .createSession draw nowIso body ∧ s.active = some true ∧
      s.djKey = some (generateDjKey (fun i => draw (6 + i))) ∧
      (handle js req st).2.sessions = st.sessions ++ [s]) ∨
    (∃ id : String, req = .deleteSession id ∧
      (handle js req st).2.sessions = st.sessions.filter (fun s => s.id != id)) ∨
    (∃ (p : Session → Bool) (f : Session → Session),
      (∀ s, SameIdentity s (f s) ∧ (s.active ≠ none → (f s).active ≠ none)) ∧
      (handle js req st).2.sessions = updateFirst p f st.sessions) := by
  cases req with
  | test => exact Or.inl rfl
  | createSession draw nowIso body =>
    simp only [handle, createSession]
    split
    · exact Or.inl rfl
    · split
      · exact Or.inl rfl
      · exact Or.inr (Or.inl ⟨_, draw, nowIso, body, rfl, rfl, rfl, rfl⟩)
  | listSessions => exact Or.inl rfl
  | getSession id =>
    left
    simp only [handle, getSession]
    split <;> rfl
  | updateSettings id body =>
    simp only [handle, updateSettings]
    split
    · exact Or.inl rfl
    · exact Or.inr (Or.inr (Or.inr ⟨fun s => s.id == id,
        fun s => { s with settings := some (mergeSettings js body s.settings) },
        fun s => ⟨⟨rfl, rfl, rfl, rfl⟩, fun h => h⟩, rfl⟩))
  | setActive id active =>
    simp only [handle, setActive]
    split
    · exact Or.inl rfl
    · exact Or.inr (Or.inr (Or.inr ⟨fun s => s.id == id,
        fun s => { s with active := some (isActiveInput active) },
        fun s => ⟨⟨rfl, rfl, rfl, rfl⟩, fun _ => by simp⟩, rfl⟩))
  | deleteSession id =>
    simp only [handle, deleteSession]
    split
    · exact Or.inl rfl
    · exact Or.inr (Or.inr (Or.inl ⟨id, rfl, rfl⟩))
  | submitWish now nowIso body =>
    left
    simp only [handle]
    rcases submitWish_cases js now nowIso body st with ⟨code, msg, h⟩ | ⟨S, _, h⟩ <;> rw [h]
  | listWishes sessionId =>
    left
    simp only [handle, listWishes]
    split <;> rfl
  | adminSetStatus idParam status =>
    left
    simp only [handle]
    rcases adminSetStatus_state js idParam status st with h | ⟨s, _, h⟩ <;> rw [h]
  | djGetSession sessionId djKey =>
    left
    simp only [handle, djGetSession]
    split
    · rfl
    · split <;> rfl
  | djListWishes sessionId djKey =>
    left
    simp only [handle, djListWishes]
    split
    · rfl
    · split <;> rfl
  | djSetStatus idParam status sessionId djKey =>
    left
    simp only [handle]
    rcases djSetStatus_state js idParam status sessionId djKey st with h | ⟨s, S, _, _, h⟩ <;>
      rw [h]

theorem filter_eq_self_of_find_none (st : State) (id : String)
    (h : findSession st (some id) = none) :
    st.sessions.filter (fun s => s.id != id) = st.sessions := by
  rw [List.filter_eq_self]
  intro s hs
  have := (findSession_eq_none_iff st id).mp h s hs
  simpa using this

/-- C14. No request changes the identity fields of a session that stays: after
any request other than a deletion every session is still at its place in the
list with the same `id`, `name`, `createdAt` and `djKey`; a deletion of the id
`id` keeps exactly the sessions whose id differs from `id`, in their order and
with all their fields. -/
theorem identity_fields_kept (js : Builtins) (req : Request) (st : State) :
    ((∀ id, req ≠ .deleteSession id) →
      ∀ (i : Nat) (s : Session), st.sessions[i]? = some s →
        ∃ s1, (handle js req st).2.sessions[i]? = some s1 ∧ SameIdentity s s1) ∧
    (∀ id, req = .deleteSession id →
      (handle js req st).2.sessions = st.sessions.filter (fun s => decide (s.id ≠ id))) := by
  constructor
  · intro hnd i s hs
    rcases handle_sessions js req st with
      h | ⟨s0, _, _, _, _, _, _, h⟩ | ⟨id, hreq, _⟩ | ⟨p, f, hf, h⟩
    · rw [h]
      exact ⟨s, hs, rfl, rfl, rfl, rfl⟩
    · rw [h]
      refine ⟨s, ?_, rfl, rfl, rfl, rfl⟩
      have hi : i < st.sessions.length := by
        by_contra hge
        rw [List.getElem?_eq_none (by omega)] at hs
        cases hs
      rw [List.getElem?_append_left hi]
      exact hs
    · exact absurd hreq (hnd id)
    · rw [h]
      rcases updateFirst_getElem? p f st.sessions i s hs with h1 | ⟨_, h1⟩
      · exact ⟨s, h1, rfl, rfl, rfl, rfl⟩
      · exact ⟨f s, h1, (hf s).1⟩
  · rintro id rfl
    have hfs : (fun s : Session => decide (s.id ≠ id)) = (fun s => s.id != id) := by
      funext s
      rw [Bool.eq_iff_iff]
      simp
    rw [hfs]
    simp only [handle, deleteSession]
    cases hf : findSession st (some id) with
    | none => exact (filter_eq_self_of_find_none st id hf).symm
    | some removed => rfl

/-- C14, at the example with two sessions: after the settings of `ABC123` are
updated, the session at the first place still has its identity fields, and
deleting `XYZ789` keeps the sessions of the other ids. -/
theorem identity_fields_kept_witness :
    (∃ s1, (handle asciiBuiltins (.updateSettings "ABC123" ⟨.num (.fin 3), .undefined, .undefined⟩)
        twoSessionState).2.sessions[0]? = some s1 ∧ SameIdentity demoSession s1) ∧
    (handle asciiBuiltins (.deleteSession "XYZ789") twoSessionState).2.sessions =
      twoSessionState.sessions.filter (fun s => decide (s.id ≠ "XYZ789")) :=
  ⟨(identity_fields_kept asciiBuiltins
      (.updateSettings "ABC123" ⟨.num (.fin 3), .undefined, .undefined⟩) twoSessionState).1
      (by intro id h; cases h) 0 demoSession rfl,
    (identity_fields_kept asciiBuiltins (.deleteSession "XYZ789") twoSessionState).2 "XYZ789" rfl⟩

/-! ## Wish ids -/

theorem map_id_updateFirst_status (p : Wish → Bool) (s : String) (ws : List Wish) :
    (updateFirst p (fun w => { w with status := s }) ws).map (fun w => w.id) =
      ws.map (fun w => w.id) := by
  induction ws with
  | nil => rfl
  | cons w ws ih =>
    unfold updateFirst
    split
    · rfl
    · simp [ih]

/-- What one request can do to the list of wish ids: keep a sublist of it, or,
for an accepted submission, append the clock reading. -/
theorem handle_wish_ids (js : Builtins) (req : Request) (st : State) :
    ((handle js req st).2.wishes.map (fun w => w.id)).Sublist (st.wishes.map (fun w => w.id)) ∨
    ∃ now nowIso body, req = .submitWish now nowIso body ∧
      (handle js req st).2.wishes.map (fun w => w.id) = st.wishes.map (fun w => w.id) ++ [now] := by
  cases req with
  | submitWish now nowIso body =>
    simp only [handle]
    rcases submitWish_cases js now nowIso body st with ⟨code, msg, h⟩ | ⟨S, _, h⟩
    · rw [h]
      exact Or.inl (List.Sublist.refl _)
    · rw [h]
      exact Or.inr ⟨now, nowIso, body, rfl, by simp [newWish]⟩
  | test => exact Or.inl (List.Sublist.refl _)
  | createSession draw nowIso body =>
    left
    rcases handle_wishes js (.createSession draw nowIso body) st with
      h | ⟨id, h⟩ | ⟨w, _, h⟩ | ⟨p, s, _, h⟩
    · rw [h]
    · rw [h]
      exact (List.filter_sublist _).map _
    · simp only [handle, createSession] at h ⊢
      split <;> try split
      all_goals exact List.Sublist.refl _
    · rw [h, map_id_updateFirst_status]
  | listSessions => exact Or.inl (List.Sublist.refl _)
  | getSession id =>
    left
    simp only [handle, getSession]
    split <;> exact List.Sublist.refl _
  | updateSettings id body =>
    left
    simp only [handle, updateSettings]
    split <;> exact List.Sublist.refl _
  | setActive id active =>
    left
    simp only [handle, setActive]
    split <;> exact List.Sublist.refl _
  | deleteSession id =>
    left
    simp only [handle, deleteSession]
    split
    · exact List.Sublist.refl _
    · exact (List.filter_sublist _).map _
  | listWishes sessionId =>
    left
    simp only [handle, listWishes]
    split <;> exact List.Sublist.refl _
  | adminSetStatus idParam status =>
    left
    simp only [handle]
    rcases adminSetStatus_state js idParam status st with h | ⟨s, _, h⟩
    · rw [h]
    · rw [h, map_id_updateFirst_status]
  | djGetSession sessionId djKey =>
    left
    simp only [handle, djGetSession]
    split
    · exact List.Sublist.refl _
    · split <;> exact List.Sublist.refl _
  | djListWishes sessionId djKey =>
    left
    simp only [handle, djListWishes]
    split
    · exact List.Sublist.refl _
    · split <;> exact List.Sublist.refl _
  | djSetStatus idParam status sessionId djKey =>
    left
    simp only [handle]
    rcases djSetStatus_state js idParam status sessionId djKey st with h | ⟨s, S, _, _, h⟩
    · rw [h]
    · rw [h, map_id_updateFirst_status]

theorem handleAll_cons_snd (js : Builtins) (r : Request) (rs : List Request) (st : State) :
    (handleAll js (r :: rs) st).2 = (handleAll js rs (handle js r st).2).2 := by
  simp [handleAll]

theorem clockReadings_cons (r : Request) (rs : List Request) :
    clockReadings (r :: rs) = clockReadings rs ∨
    ∃ now nowIso body, r = .submitWish now nowIso body ∧
      clockReadings (r :: rs) = now :: clockReadings rs := by
  cases r <;> first
    | exact Or.inl rfl
    | exact Or.inr ⟨_, _, _, rfl, rfl⟩

theorem wish_ids_increasing (js : Builtins) :
    ∀ (reqs : List Request) (st : State),
      (st.wishes.map (fun w => w.id)).Pairwise (· < ·) →
      (∀ x ∈ st.wishes.map (fun w => w.id), ∀ t ∈ clockReadings reqs, x < t) →
      (clockReadings reqs).Pairwise (· < ·) →
      ((handleAll js reqs st).2.wishes.map (fun w => w.id)).Pairwise (· < ·) := by
  intro reqs
  induction reqs with
  | nil => intro st h _ _; exact h
  | cons r rs ih =>
    intro st hsorted hbound hclock
    rw [handleAll_cons_snd]
    have hsub : ∀ t ∈ clockReadings rs, t ∈ clockReadings (r :: rs) := by
      intro t ht
      rcases clockReadings_cons r rs with h | ⟨now, _, _, _, h⟩
      · rw [h]; exact ht
      · rw [h]; exact List.mem_cons_of_mem _ ht
    have hclock2 : (clockReadings rs).Pairwise (· < ·) := by
      rcases clockReadings_cons r rs with h | ⟨now, _, _, _, h⟩
      · rw [h] at hclock; exact hclock
      · rw [h] at hclock; exact (List.pairwise_cons.mp hclock).2
    rcases handle_wish_ids js r st with h | ⟨now, nowIso, body, hr, h⟩
    · apply ih _ (hsorted.sublist h) _ hclock2
      intro x hx t ht
      exact hbound x (h.subset hx) t (hsub t ht)
    · have hreadings : clockReadings (r :: rs) = now :: clockReadings rs := by
        rw [hr]
        rfl
      rw [hreadings] at hbound hclock
      apply ih _ _ _ hclock2
      · rw [h, List.pairwise_append]
        refine ⟨hsorted, List.pairwise_singleton _ _, ?_⟩
        intro a ha b hb
        rw [List.mem_singleton] at hb
        rw [hb]
        exact hbound a ha now (List.mem_cons_self _ _)
      · intro x hx t ht
        rw [h, List.mem_append, List.mem_singleton] at hx
        rcases hx with hx | hx
        · exact hbound x hx t (List.mem_cons_of_mem _ ht)
        · rw [hx]
          exact (List.pairwise_cons.mp hclock).1 t ht

/-- C15 (amended). In every state reached from an empty ledger by any sequence
of requests whose clock readings strictly increase, no two wishes have the
same id; the ids even increase along the ledger. -/
theorem wish_ids_unique (js : Builtins) (sessions : List Session) (reqs : List Request)
    (hclock : (clockReadings reqs).Pairwise (· < ·)) :
    ((handleAll js reqs { sessions := sessions, wishes := [] }).2.wishes.map
        (fun w => w.id)).Nodup ∧
    ((handleAll js reqs { sessions := sessions, wishes := [] }).2.wishes.map
        (fun w => w.id)).Pairwise (· < ·) := by
  have h := wish_ids_increasing js reqs { sessions := sessions, wishes := [] }
    List.Pairwise.nil (by intro x hx; simp at hx) hclock
  exact ⟨h.imp (fun hlt => ne_of_lt hlt), h⟩

/-- C15 (amended), at the example session: two wishes submitted at the readings
5 and 6 get different ids. -/
theorem wish_ids_unique_witness :
    ((handleAll asciiBuiltins
        (submissions [(5, "t5", demoNamedWish "Alice"), (6, "t6", demoNamedWish "Bob")])
        { sessions := [demoSession], wishes := [] }).2.wishes.map (fun w => w.id)).Nodup :=
  (wish_ids_unique asciiBuiltins [demoSession]
    (submissions [(5, "t5", demoNamedWish "Alice"), (6, "t6", demoNamedWish "Bob")])
    (by decide)).1

/-- C15 as stated fails: two wishes submitted within the same millisecond, at
the readings 5 and 5 (which do not decrease), are both accepted and both get
the id 5. -/
theorem wish_ids_same_reading_counterexample :
    clockReadings
        (submissions [(5, "t5", demoNamedWish "Alice"), (5, "t5", demoNamedWish "Bob")]) =
      [5, 5] ∧
    (handleAll asciiBuiltins
        (submissions [(5, "t5", demoNamedWish "Alice"), (5, "t5", demoNamedWish "Bob")])
        { sessions := [demoSession], wishes := [] }).2.wishes.map
      (fun w => (w.id, w.name)) = [(5, some "Alice"), (5, some "Bob")] := by
  decide

/-! ## The active flag -/

theorem isActiveInput_iff (v : JsVal) :
    isActiveInput v = true ↔
      v = .bool true ∨ v = .str "true" ∨ v = .num (.fin 1) ∨ v = .str "1" := by
  unfold isActiveInput
  simp only [Bool.or_eq_true, decide_eq_true_eq]
  tauto

/-- C16. On an existing session the handler stores `active = true` exactly
when the input is `true`, `'true'`, `1` or `'1'`, and `active = false` for
every other input, the absent one included; the session keeps its place and
all its other fields, and no other session and no wish changes.  For an id
that no session has the answer is 404 and nothing changes. -/
theorem setActive_spec (id : String) (active : JsVal) (st : State) :
    (∀ S, IsSessionWithId st.sessions id S →
      ∃ (before after : List Session) (flag : Bool),
        st.sessions = before ++ S :: after ∧
        setActive id active st =
          (.ok (.session { S with active := some flag }),
            { sessions := before ++ { S with active := some flag } :: after
              wishes := st.wishes }) ∧
        (flag = true ↔
          active = .bool true ∨ active = .str "true" ∨ active = .num (.fin 1) ∨
            active = .str "1")) ∧
    ((∀ s ∈ st.sessions, s.id ≠ id) →
      setActive id active st = (.fail 404 .sessionNotFound, st)) := by
  constructor
  · rintro S ⟨hid, before, after, hst, hbefore⟩
    have hfind : findSession st (some id) = some S :=
      (findSession_eq_some_iff st id S).mpr ⟨hid, before, after, hst, hbefore⟩
    refine ⟨before, after, isActiveInput active, hst, ?_, isActiveInput_iff active⟩
    unfold setActive
    rw [hfind]
    simp only
    rw [hst, updateFirst_split _ _ before after S (by intro a ha; simpa using hbefore a ha)
      (by simpa using hid)]
  · intro hnone
    unfold setActive
    rw [(findSession_eq_none_iff st id).mpr hnone]

/-- C16, at the example session: the input `'1'` stores `true`, the absent
input stores `false`, and the id `NOSUCH` is not found. -/
theorem setActive_spec_witness :
    (∃ (before after : List Session) (flag : Bool),
      demoState.sessions = before ++ demoSession :: after ∧
      setActive "ABC123" (.str "1") demoState =
        (.ok (.session { demoSession with active := some flag }),
          { sessions := before ++ { demoSession with active := some flag } :: after
            wishes := demoState.wishes }) ∧
      flag = true) ∧
    (∃ (before after : List Session) (flag : Bool),
      demoState.sessions = before ++ demoSession :: after ∧
      setActive "ABC123" .undefined demoState =
        (.ok (.session { demoSession with active := some flag }),
          { sessions := before ++ { demoSession with active := some flag } :: after
            wishes := demoState.wishes }) ∧
      flag = false) ∧
    setActive "NOSUCH" (.bool true) demoState = (.fail 404 .sessionNotFound, demoState) :=
  ⟨((setActive_spec "ABC123" (.str "1") demoState).1 demoSession ⟨rfl, [], [], rfl, by simp⟩).imp
      fun _ h => h.imp fun _ h => h.imp fun _ h =>
        ⟨h.1, h.2.1, h.2.2.mpr (Or.inr (Or.inr (Or.inr rfl)))⟩,
    ((setActive_spec "ABC123" .undefined demoState).1 demoSession ⟨rfl, [], [], rfl, by simp⟩).imp
      fun _ h => h.imp fun _ h => h.imp fun _ h =>
        ⟨h.1, h.2.1, Bool.eq_false_iff.mpr (fun hf => absurd (h.2.2.mp hf) (by decide))⟩,
    (setActive_spec "NOSUCH" (.bool true) demoState).2 (by decide)⟩

/-! ## Loading the snapshot -/

theorem filterMap_length_of_some {α β : Type} (f : α → Option β) (l : List α)
    (h : ∀ a ∈ l, ∃ b, f a = some b) : (l.filterMap f).length = l.length := by
  induction l with
  | nil => rfl
  | cons a as ih =>
    obtain ⟨b, hb⟩ := h a (List.mem_cons_self _ _)
    rw [List.filterMap_cons_some hb, List.length_cons, List.length_cons,
      ih (fun x hx => h x (List.mem_cons_of_mem _ hx))]

theorem generateDjKey_length (draw : Nat → Nat) (h : ∀ i, i < 32 → draw i < 62) :
    (generateDjKey draw).data.length = 32 := by
  unfold generateDjKey randomString
  simp only
  rw [filterMap_length_of_some]
  · simp
  · intro i hi
    rw [List.mem_range] at hi
    have hlt : draw i <
        "abcdefghijklmnopqrstuvwxyzABCDEFGHIJKLMNOPQRSTUVWXYZ0123456789".data.length := by
      have := h i hi
      simpa using this
    exact ⟨_, List.get?_eq_get hlt⟩

theorem generateDjKey_ne_empty (draw : Nat → Nat) (h : ∀ i, i < 32 → draw i < 62) :
    generateDjKey draw ≠ "" := by
  intro h0
  have hl := generateDjKey_length draw h
  rw [h0] at hl
  simp at hl

theorem truthyStr_eq_true_iff_key (o : Option String) :
    truthyStr o = true ↔ ∃ key, o = some key ∧ key ≠ "" :=
  truthyStr_true_iff o

theorem keylessBefore_zero (l : List Session) : keylessBefore l 0 = 0 := by
  simp [keylessBefore]

theorem keylessBefore_cons_succ (s : Session) (l : List Session) (i : Nat) :
    keylessBefore (s :: l) (i + 1) =
      (if truthyStr s.djKey then 0 else 1) + keylessBefore l i := by
  unfold keylessBefore
  rw [List.take_succ_cons, List.countP_cons]
  cases truthyStr s.djKey <;> simp [Nat.add_comm]

/-- Two sessions without key never share a window of draws: the later one comes
after one more generated key. -/
theorem keylessBefore_lt :
    ∀ (l : List Session) (i j : Nat) (s : Session), i < j → l[i]? = some s →
      truthyStr s.djKey = false → keylessBefore l i < keylessBefore l j := by
  intro l
  induction l with
  | nil => intro i j s _ h _; simp at h
  | cons x rest ih =>
    intro i j s hij hs hk
    cases j with
    | zero => omega
    | succ j1 =>
      cases i with
      | zero =>
        simp only [List.getElem?_cons_zero, Option.some.injEq] at hs
        subst hs
        rw [keylessBefore_zero, keylessBefore_cons_succ, hk]
        simp
      | succ i1 =>
        simp only [List.getElem?_cons_succ] at hs
        have := ih i1 j1 s (by omega) hs hk
        rw [keylessBefore_cons_succ, keylessBefore_cons_succ]
        omega

theorem backfillSession_spec (draw : Nat → Nat) (k : Nat) (s : Session) :
    Backfills draw k s (backfillSession draw k s).1 ∧
    ((backfillSession draw k s).2.2 = true ↔ (s.active = none ∨ truthyStr s.djKey = false)) ∧
    (backfillSession draw k s).2.1 = k + (if truthyStr s.djKey then 0 else 1) := by
  obtain ⟨id, name, active, createdAt, settings, djKey⟩ := s
  cases hk : truthyStr djKey <;> cases active <;>
    simp [backfillSession, Backfills, hk]

theorem backfillSession_backfilled (draw : Nat → Nat) (hdraw : ∀ i, draw i < 62) (k : Nat)
    (s : Session) :
    (backfillSession draw k s).1.active ≠ none ∧
      ∃ key, (backfillSession draw k s).1.djKey = some key ∧ key ≠ "" := by
  have hkey := generateDjKey_ne_empty (fun i => draw (32 * k + i)) (fun i _ => hdraw _)
  obtain ⟨id, name, active, createdAt, settings, djKey⟩ := s
  cases hk : truthyStr djKey
  · cases active <;> simp [backfillSession, hk, hkey]
  · obtain ⟨key, h1, h2⟩ := (truthyStr_true_iff djKey).mp hk
    subst h1
    cases active <;> simp [backfillSession, hk, h2]

theorem backfillSession_changed (draw : Nat → Nat) (hdraw : ∀ i, draw i < 62) (k : Nat)
    (s : Session) :
    (backfillSession draw k s).2.2 = true ↔ (backfillSession draw k s).1 ≠ s := by
  have hb := backfillSession_backfilled draw hdraw k s
  obtain ⟨hspec, hflag, _⟩ := backfillSession_spec draw k s
  rw [hflag]
  constructor
  · intro h heq
    rw [heq] at hb
    rcases h with h | h
    · exact hb.1 h
    · obtain ⟨key, h1, h2⟩ := hb.2
      rw [h1] at h
      simp [truthyStr, h2] at h
  · intro hne
    by_contra hnot
    simp only [not_or, Bool.not_eq_false] at hnot
    exact hne (hspec.2.2.2.2.2.2.2.2 hnot.1 hnot.2)

theorem backfill_spec (draw : Nat → Nat) (hdraw : ∀ i, draw i < 62) :
    ∀ (l : List Session) (k : Nat),
      (backfill draw k l).1.length = l.length ∧
      (∀ (i : Nat) (s : Session), l[i]? = some s →
        ∃ s1, (backfill draw k l).1[i]? = some s1 ∧
          Backfills draw (k + keylessBefore l i) s s1) ∧
      (∀ s1 ∈ (backfill draw k l).1,
        s1.active ≠ none ∧ ∃ key, s1.djKey = some key ∧ key ≠ "") ∧
      ((backfill draw k l).2 = true ↔ (backfill draw k l).1 ≠ l) := by
  intro l
  induction l with
  | nil =>
    intro k
    simp [backfill]
  | cons s rest ih =>
    intro k
    obtain ⟨hlen, hrel, hfilled, hflag⟩ := ih (backfillSession draw k s).2.1
    have hhead := backfillSession_spec draw k s
    have hheadFilled := backfillSession_backfilled draw hdraw k s
    have hheadChanged := backfillSession_changed draw hdraw k s
    refine ⟨?_, ?_, ?_, ?_⟩
    · simp [backfill, hlen]
    · intro i x hx
      cases i with
      | zero =>
        simp only [List.getElem?_cons_zero, Option.some.injEq] at hx
        subst hx
        rw [keylessBefore_zero, Nat.add_zero]
        exact ⟨_, by simp [backfill], hhead.1⟩
      | succ j =>
        simp only [List.getElem?_cons_succ] at hx
        obtain ⟨s1, h1, h2⟩ := hrel j x hx
        rw [hhead.2.2, Nat.add_assoc, ← keylessBefore_cons_succ] at h2
        exact ⟨s1, by simpa [backfill] using h1, h2⟩
    · intro s1 hs1
      simp only [backfill, List.mem_cons] at hs1
      rcases hs1 with h | h
      · rw [h]
        exact hheadFilled
      · exact hfilled s1 h
    · simp only [backfill, Bool.or_eq_true, ne_eq, List.cons.injEq, not_and]
      rw [hheadChanged, hflag]
      constructor
      · rintro (h | h)
        · intro h1
          exact absurd h1 h
        · intro _
          exact h
      · intro h
        by_cases h1 : (backfillSession draw k s).1 = s
        · exact Or.inr (h h1)
        · exact Or.inl h1

/-- C17. Loading a parseable snapshot leaves in memory the sessions of the
snapshot, in their order, each with a defined `active` flag and a non-empty
`djKey`: a session without `active` is active; a session without key (or with
an empty one) has a freshly generated key, namely the key made of the next
thirty-two random draws, a window of draws that no other session of the
snapshot uses; a session that had both is as it was, and nothing else of a
session changes; the wishes are those of the snapshot; and the loaded state is
saved exactly when a session was changed. -/
theorem loadData_backfills (draw : Nat → Nat) (hdraw : ∀ i, draw i < 62)
    (sessions : Option (List Session)) (wishes : Option (List Wish)) (st : State)
    (saved : Option DataFile) (hload : loadData draw (.snapshot sessions wishes) = (st, saved)) :
    Backfilled st ∧
    st.sessions.length = (sessions.getD []).length ∧
    (∀ (i : Nat) (s : Session), (sessions.getD [])[i]? = some s →
      ∃ s1, st.sessions[i]? = some s1 ∧
        Backfills draw (keylessBefore (sessions.getD []) i) s s1) ∧
    (∀ (i j : Nat) (s : Session), i < j → (sessions.getD [])[i]? = some s →
      truthyStr s.djKey = false →
      keylessBefore (sessions.getD []) i < keylessBefore (sessions.getD []) j) ∧
    st.wishes = wishes.getD [] ∧
    (st.sessions = sessions.getD [] → saved = none) ∧
    (st.sessions ≠ sessions.getD [] → saved = some (saveData st)) := by
  obtain ⟨hlen, hrel, hfilled, hflag⟩ := backfill_spec draw hdraw (sessions.getD []) 0
  simp only [loadData, Prod.mk.injEq] at hload
  obtain ⟨hst, hsaved⟩ := hload
  subst hst
  refine ⟨hfilled, hlen, ?_, keylessBefore_lt (sessions.getD []), rfl, ?_, ?_⟩
  · intro i s hs
    obtain ⟨s1, h1, h2⟩ := hrel i s hs
    rw [Nat.zero_add] at h2
    exact ⟨s1, h1, h2⟩
  · intro heq
    rw [← hsaved]
    have : (backfill draw 0 (sessions.getD [])).2 = false := by
      cases hb : (backfill draw 0 (sessions.getD [])).2 with
      | false => rfl
      | true => exact absurd heq (hflag.mp hb)
    simp [this]
  · intro hne
    rw [← hsaved]
    simp [hflag.mpr hne]

/-- C17, at the example snapshot with two sessions that lack a key: after
loading every session has an `active` flag and a key, the first keyless
session has the key of the first window of draws and the second keyless one the
key of the second window, a different key, and the loaded state is saved. -/
theorem loadData_backfills_witness :
    Backfilled (loadData windowDraw legacyFile).1 ∧
    (∃ s1, (loadData windowDraw legacyFile).1.sessions[2]? = some s1 ∧
      s1.djKey = some (generateDjKey (fun i => windowDraw (32 * 1 + i))) ∧
      s1.djKey = some "bbbbbbbbbbbbbbbbbbbbbbbbbbbbbbbb") ∧
    (loadData windowDraw legacyFile).1.sessions.map (fun s => s.djKey) =
      [some "aaaaaaaaaaaaaaaaaaaaaaaaaaaaaaaa", some "k3y",
        some "bbbbbbbbbbbbbbbbbbbbbbbbbbbbbbbb"] ∧
    (loadData windowDraw legacyFile).2 = some (saveData (loadData windowDraw legacyFile).1) :=
  have h := loadData_backfills windowDraw (fun i => Nat.mod_lt (i / 32) (by decide)) _ _
    (loadData windowDraw legacyFile).1 (loadData windowDraw legacyFile).2 rfl
  ⟨h.1,
    (h.2.2.1 2 { id := "OLD002", name := "Older", active := some false
                 createdAt := "2022-01-01T00:00:00.000Z", settings := none, djKey := some "" }
      rfl).imp (fun _ hs => ⟨hs.1, hs.2.2.2.2.2.2.2.1 rfl,
        (hs.2.2.2.2.2.2.2.1 rfl).trans (by decide)⟩),
    by decide, h.2.2.2.2.2.2 (by decide)⟩

/-! ## Saving and loading again -/

theorem handle_backfilled (js : Builtins) (req : Request) (st : State)
    (hreq : req.drawsInRange) (h : Backfilled st) : Backfilled (handle js req st).2 := by
  intro x hx
  rcases handle_sessions js req st with
    hs | ⟨s0, draw, nowIso, body, hr, hactive, hkey, hs⟩ | ⟨id, _, hs⟩ | ⟨p, f, hf, hs⟩
  · rw [hs] at hx
    exact h x hx
  · rw [hs, List.mem_append, List.mem_singleton] at hx
    rcases hx with hx | hx
    · exact h x hx
    · subst hx
      subst hr
      refine ⟨by rw [hactive]; simp, _, hkey, ?_⟩
      exact generateDjKey_ne_empty _ hreq.2
  · rw [hs] at hx
    exact h x (List.mem_of_mem_filter hx)
  · rw [hs] at hx
    rcases mem_updateFirst p f st.sessions x hx with h1 | ⟨y, hy, h1⟩
    · exact h x h1
    · subst h1
      obtain ⟨hact, key, hk1, hk2⟩ := h y hy
      exact ⟨(hf y).2 hact, key, by rw [(hf y).1.2.2.2, hk1], hk2⟩

theorem reachable_backfilled (js : Builtins) (st : State) (h : Reachable js st) :
    Backfilled st := by
  induction h with
  | load draw file hdraw =>
    cases file with
    | snapshot sessions wishes =>
      exact (backfill_spec draw hdraw (sessions.getD []) 0).2.2.1
    | missing => intro s hs; simp [loadData] at hs
    | blank => intro s hs; simp [loadData] at hs
    | malformed => intro s hs; simp [loadData] at hs
  | step st req _ hreq ih => exact handle_backfilled js req st hreq ih

theorem backfill_of_backfilled (draw : Nat → Nat) :
    ∀ (l : List Session) (k : Nat),
      (∀ s ∈ l, s.active ≠ none ∧ ∃ key, s.djKey = some key ∧ key ≠ "") →
      backfill draw k l = (l, false) := by
  intro l
  induction l with
  | nil => intro k _; rfl
  | cons s rest ih =>
    intro k h
    obtain ⟨hact, key, hk1, hk2⟩ := h s (List.mem_cons_self _ _)
    have hone : backfillSession draw k s = (s, k, false) := by
      have hk : truthyStr s.djKey = true := by rw [hk1]; exact (truthyStr_some_iff key).mpr hk2
      unfold backfillSession
      simp [hact, hk]
    simp only [backfill, hone, ih k (fun x hx => h x (List.mem_cons_of_mem _ hx)), Bool.or_self]

theorem jsonSession_of_finite (s : Session)
    (h : ∀ stg, s.settings = some stg → ∀ n, stg.maxWishesPerGuest = some n → ∃ q, n = .fin q) :
    jsonSession s = s := by
  obtain ⟨id, name, active, createdAt, settings, djKey⟩ := s
  cases settings with
  | none => rfl
  | some stg =>
    obtain ⟨limit, requireName, allowComment⟩ := stg
    cases limit with
    | none => rfl
    | some n =>
      obtain ⟨q, hq⟩ := h _ rfl n rfl
      subst hq
      rfl

/-- C18 (amended). For every state reached by a load followed by any sequence
of requests, loading what `saveData` writes performs no further save and
yields the same wishes and the same sessions, in the same order, except that
a limit that is not a finite number is read back as `null`; when every stored
limit is finite, the loaded state is the saved state. -/
theorem save_load_roundtrip (js : Builtins) (st : State) (hreach : Reachable js st)
    (draw : Nat → Nat) :
    loadData draw (saveData st) =
      ({ sessions := st.sessions.map jsonSession, wishes := st.wishes }, none) ∧
    (∀ s ∈ st.sessions, SameIdentity s (jsonSession s) ∧ (jsonSession s).active = s.active) ∧
    (FiniteLimits st → loadData draw (saveData st) = (st, none)) := by
  have hfilled := reachable_backfilled js st hreach
  have hfilled2 : ∀ s ∈ st.sessions.map jsonSession,
      s.active ≠ none ∧ ∃ key, s.djKey = some key ∧ key ≠ "" := by
    intro s hs
    obtain ⟨t, ht, rfl⟩ := List.mem_map.mp hs
    exact hfilled t ht
  have hload : loadData draw (saveData st) =
      ({ sessions := st.sessions.map jsonSession, wishes := st.wishes }, none) := by
    simp [loadData, saveData, backfill_of_backfilled draw _ 0 hfilled2]
  refine ⟨hload, fun s _ => ⟨⟨rfl, rfl, rfl, rfl⟩, rfl⟩, ?_⟩
  intro hfinite
  have hmap : st.sessions.map jsonSession = st.sessions := by
    conv_rhs => rw [← List.map_id st.sessions]
    apply List.map_congr_left
    intro s hs
    exact jsonSession_of_finite s (hfinite s hs)
  rw [hload, hmap]

/-- C18 (amended), at the example state after one accepted wish: saving and
loading gives the state back without a further save. -/
theorem save_load_roundtrip_witness :
    loadData (fun _ => 0) (saveData (handle asciiBuiltins (.submitWish 5 "t5" demoWish)
        (loadData (fun _ => 0) (saveData demoState)).1).2) =
      ((handle asciiBuiltins (.submitWish 5 "t5" demoWish)
        (loadData (fun _ => 0) (saveData demoState)).1).2, none) :=
  (save_load_roundtrip asciiBuiltins _
    (Reachable.step _ (.submitWish 5 "t5" demoWish)
      (Reachable.load (fun _ => 0) (saveData demoState) (fun _ => Nat.zero_lt_succ 61)) trivial)
    (fun _ => 0)).2.2 (by
      intro s hs stg hstg n hn
      have hst : (handle asciiBuiltins (.submitWish 5 "t5" demoWish)
          (loadData (fun _ => 0) (saveData demoState)).1).2.sessions = [demoSession] := by decide
      rw [hst, List.mem_singleton] at hs
      subst hs
      cases hstg
      cases hn
      exact ⟨1, rfl⟩)

/-- C18 as stated fails: the state after a load without file and the creation
of a session with the limit `1e999` holds the limit `Infinity`; what is saved
and loaded again holds no limit (`null`) in its place, so the loaded sessions
differ from the saved ones. -/
theorem save_load_infinite_limit_counterexample :
    unlimitedState.sessions.map (fun s => s.settings.bind (fun stg => stg.maxWishesPerGuest)) =
      [some .posInf] ∧
    (loadData (fun _ => 0) (saveData unlimitedState)).1.sessions.map
      (fun s => s.settings.bind (fun stg => stg.maxWishesPerGuest)) = [none] := by
  decide

/-! ## Creation defaults -/

theorem flagOnCreate_false (v : JsVal) (h1 : v ≠ .undefined) (h2 : ∀ b, v ≠ .bool b)
    (h3 : v ≠ .str "true") : flagOnCreate v = false := by
  cases v with
  | undefined => exact absurd rfl h1
  | bool b => exact absurd rfl (h2 b)
  | str s =>
    have hs : s ≠ "true" := fun h => h3 (by rw [h])
    simp [flagOnCreate, hs]
  | null => rfl
  | num n => rfl
  | object t => rfl

theorem createSession_ok (js : Builtins) (draw : Nat → Nat) (nowIso name : String)
    (maxWishesPerGuest requireName allowComment : JsVal) (st : State)
    (hb : isBlank name = false) :
    createSession js draw nowIso ⟨some name, maxWishesPerGuest, requireName, allowComment⟩ st =
      (.ok (.session
          { id := generateSessionId draw
            name := jsTrim name
            active := some true
            createdAt := nowIso
            settings := some
              { maxWishesPerGuest := some (numberOrZero js maxWishesPerGuest)
                requireName := some (flagOnCreate requireName)
                allowComment := some (flagOnCreate allowComment) }
            djKey := some (generateDjKey (fun i => draw (6 + i))) }),
        { st with sessions := st.sessions ++
            [{ id := generateSessionId draw
               name := jsTrim name
               active := some true
               createdAt := nowIso
               settings := some
                 { maxWishesPerGuest := some (numberOrZero js maxWishesPerGuest)
                   requireName := some (flagOnCreate requireName)
                   allowComment := some (flagOnCreate allowComment) }
               djKey := some (generateDjKey (fun i => draw (6 + i))) }] }) := by
  have ht := (isBlank_false_iff name).mp hb
  have hne : name ≠ "" := by
    intro h0
    apply ht
    rw [h0]
    exact jsTrim_empty
  unfold createSession
  simp [ht, hne]

/-- C19. A session created under a non-blank name without `maxWishesPerGuest`,
`requireName` and `allowComment` is active and has the limit 0 and both flags
`true`; a `requireName` or `allowComment` that is provided, is not a boolean
and is not the string `true` is stored as `false`. -/
theorem createSession_defaults (js : Builtins) (draw : Nat → Nat) (nowIso name : String)
    (st : State) (hb : isBlank name = false) :
    (∃ (s : Session) (stg : Settings),
      createSession js draw nowIso ⟨some name, .undefined, .undefined, .undefined⟩ st =
        (.ok (.session s), { st with sessions := st.sessions ++ [s] }) ∧
      s.active = some true ∧ s.settings = some stg ∧
      stg.maxWishesPerGuest = some (.fin 0) ∧ stg.requireName = some true ∧
      stg.allowComment = some true) ∧
    (∀ maxWishesPerGuest requireName allowComment : JsVal,
      ∃ (s : Session) (stg : Settings),
        createSession js draw nowIso ⟨some name, maxWishesPerGuest, requireName, allowComment⟩
          st = (.ok (.session s), { st with sessions := st.sessions ++ [s] }) ∧
        s.active = some true ∧ s.settings = some stg ∧
        (requireName ≠ .undefined → (∀ b, requireName ≠ .bool b) →
          requireName ≠ .str "true" → stg.requireName = some false) ∧
        (allowComment ≠ .undefined → (∀ b, allowComment ≠ .bool b) →
          allowComment ≠ .str "true" → stg.allowComment = some false)) := by
  constructor
  · refine ⟨_, _, createSession_ok js draw nowIso name _ _ _ st hb, rfl, rfl, ?_, rfl, rfl⟩
    simp [numberOrZero, jsNumber, JsNum.truthy]
  · intro mx rn ac
    refine ⟨_, _, createSession_ok js draw nowIso name mx rn ac st hb, rfl, rfl, ?_, ?_⟩
    · intro h1 h2 h3
      rw [flagOnCreate_false rn h1 h2 h3]
    · intro h1 h2 h3
      rw [flagOnCreate_false ac h1 h2 h3]

/-- C19, at the name `Party`: the session created without settings is active
with limit 0 and both flags `true`, and `requireName: 'yes'` is stored as
`false`. -/
theorem createSession_defaults_witness :
    (∃ (s : Session) (stg : Settings),
      createSession asciiBuiltins (fun i => i) "t0" ⟨some "Party", .undefined, .undefined,
          .undefined⟩ demoState =
        (.ok (.session s), { demoState with sessions := demoState.sessions ++ [s] }) ∧
      s.active = some true ∧ s.settings = some stg ∧
      stg.maxWishesPerGuest = some (.fin 0) ∧ stg.requireName = some true ∧
      stg.allowComment = some true) ∧
    (∃ (s : Session) (stg : Settings),
      createSession asciiBuiltins (fun i => i) "t0" ⟨some "Party", .undefined, .str "yes",
          .undefined⟩ demoState =
        (.ok (.session s), { demoState with sessions := demoState.sessions ++ [s] }) ∧
      s.settings = some stg ∧ stg.requireName = some false) :=
  ⟨(createSession_defaults asciiBuiltins (fun i => i) "t0" "Party" demoState (by decide)).1,
    ((createSession_defaults asciiBuiltins (fun i => i) "t0" "Party" demoState (by decide)).2
      .undefined (.str "yes") .undefined).imp fun _ h => h.imp fun _ h =>
        ⟨h.1, h.2.2.1, h.2.2.2.1 (by decide) (fun b hb => by cases hb) (by decide)⟩⟩

/-! ## Anonymous guests -/

/-- What one request can do to the wishes, with the appended wish spelled out:
nothing, remove the wishes of one session, append the new wish of an accepted
submission, or give one wish another status. -/
theorem handle_wishes_detailed (js : Builtins) (req : Request) (st : State) :
    (handle js req st).2.wishes = st.wishes ∨
    (∃ id : String, (handle js req st).2.wishes =
      st.wishes.filter (fun w => w.sessionId != id)) ∨
    (∃ (now : Int) (nowIso : String) (body : WishInput) (S : Session),
      req = .submitWish now nowIso body ∧
      (handle js req st).2.wishes =
        st.wishes ++ [newWish now nowIso body S (jsTrim (orEmpty body.name))]) ∨
    (∃ (p : Wish → Bool) (s : String),
      (handle js req st).2.wishes =
        updateFirst p (fun w => { w with status := s }) st.wishes) := by
  cases req with
  | submitWish now nowIso body =>
    simp only [handle]
    rcases submitWish_cases js now nowIso body st with ⟨code, msg, h⟩ | ⟨S, _, h⟩
    · rw [h]
      exact Or.inl rfl
    · rw [h]
      exact Or.inr (Or.inr (Or.inl ⟨now, nowIso, body, S, rfl, rfl⟩))
  | adminSetStatus idParam status =>
    simp only [handle]
    rcases adminSetStatus_state js idParam status st with h | ⟨s, _, h⟩
    · rw [h]
      exact Or.inl rfl
    · rw [h]
      exact Or.inr (Or.inr (Or.inr ⟨_, s, rfl⟩))
  | djSetStatus idParam status sessionId djKey =>
    simp only [handle]
    rcases djSetStatus_state js idParam status sessionId djKey st with h | ⟨s, S, _, _, h⟩
    · rw [h]
      exact Or.inl rfl
    · rw [h]
      exact Or.inr (Or.inr (Or.inr ⟨_, s, rfl⟩))
  | deleteSession id =>
    simp only [handle, deleteSession]
    split
    · exact Or.inl rfl
    · exact Or.inr (Or.inl ⟨id, rfl⟩)
  | test => exact Or.inl rfl
  | listSessions => exact Or.inl rfl
  | createSession draw nowIso body =>
    left
    simp only [handle, createSession]
    split
    · rfl
    · split <;> rfl
  | getSession id =>
    left
    simp only [handle, getSession]
    split <;> rfl
  | updateSettings id body =>
    left
    simp only [handle, updateSettings]
    split <;> rfl
  | setActive id active =>
    left
    simp only [handle, setActive]
    split <;> rfl
  | listWishes sessionId =>
    left
    simp only [handle, listWishes]
    split <;> rfl
  | djGetSession sessionId djKey =>
    left
    simp only [handle, djGetSession]
    split
    · rfl
    · split <;> rfl
  | djListWishes sessionId djKey =>
    left
    simp only [handle, djListWishes]
    split
    · rfl
    · split <;> rfl

theorem newWish_name_nonBlank (now : Int) (nowIso : String) (body : WishInput) (S : Session)
    (input : String) :
    isBlank (orEmpty (newWish now nowIso body S (jsTrim input)).name) = false := by
  rw [isBlank_false_iff]
  by_cases h : jsTrim input = ""
  · have hg : jsTrim "Gast" ≠ "" := by decide
    simpa [newWish, orEmpty, h] using hg
  · simp [newWish, orEmpty, h, jsTrim_idem]

theorem handle_namesNonBlank (js : Builtins) (req : Request) (st : State)
    (h : NamesNonBlank st) : NamesNonBlank (handle js req st).2 := by
  intro w hw
  rcases handle_wishes_detailed js req st with
    hs | ⟨id, hs⟩ | ⟨now, nowIso, body, S, _, hs⟩ | ⟨p, s, hs⟩
  · rw [hs] at hw
    exact h w hw
  · rw [hs] at hw
    exact h w (List.mem_of_mem_filter hw)
  · rw [hs, List.mem_append, List.mem_singleton] at hw
    rcases hw with hw | hw
    · exact h w hw
    · rw [hw]
      exact newWish_name_nonBlank now nowIso body S _
  · rw [hs] at hw
    rcases mem_updateFirst _ _ _ _ hw with h1 | ⟨y, hy, h1⟩
    · exact h w h1
    · rw [h1]
      exact h y hy

theorem handleAll_namesNonBlank (js : Builtins) :
    ∀ (reqs : List Request) (st : State), NamesNonBlank st →
      NamesNonBlank (handleAll js reqs st).2 := by
  intro reqs
  induction reqs with
  | nil => intro st h; exact h
  | cons r rs ih =>
    intro st h
    rw [handleAll_cons_snd]
    exact ih _ (handle_namesNonBlank js r st h)

theorem existingCount_anonymous (js : Builtins)
    (hlower : ∀ s, js.toLowerCase s = js.toLowerCase "" → s = "") (st : State)
    (hnames : NamesNonBlank st) (sid : String) (body : WishInput) (hanon : IsAnonymous body) :
    existingCount js st.wishes sid body.deviceId (jsTrim (orEmpty body.name)) = 0 := by
  obtain ⟨hdev, hblank⟩ := hanon
  have htrim : jsTrim (orEmpty body.name) = "" := (isBlank_iff_jsTrim _).mp hblank
  unfold existingCount
  rw [hdev, htrim]
  simp only [Bool.false_eq_true, if_false, List.length_eq_zero, List.filter_eq_nil_iff,
    Bool.and_eq_true, beq_iff_eq, not_and]
  intro w hw _ hl
  exact (isBlank_false_iff _).mp (hnames w hw) (hlower _ hl)

theorem quotaReached_of_count_zero (js : Builtins) (settings : Settings) (wishes : List Wish)
    (sid : String) (dev : Option String) (name : String)
    (h : existingCount js wishes sid dev name = 0) :
    quotaReached js settings wishes sid dev name = none := by
  unfold quotaReached
  rw [h]
  cases settings.maxWishesPerGuest with
  | none => rfl
  | some limit =>
    cases limit with
    | nan => simp [JsNum.truthy]
    | posInf => simp [JsNum.countGe]
    | negInf => simp [JsNum.gtZero]
    | fin q =>
      simp only [JsNum.truthy, JsNum.gtZero, JsNum.countGe, Nat.cast_zero]
      by_cases hq : 0 < q
      · have : ¬ q ≤ 0 := not_le.mpr hq
        simp [this]
      · simp [hq]

theorem submitWish_quota_inv (js : Builtins) (now : Int) (nowIso : String) (body : WishInput)
    (st : State) (code : Nat) (limit : JsNum)
    (h : (submitWish js now nowIso body st).1 = .fail code (.quotaExceeded limit)) :
    ∃ S : Session, quotaReached js (S.settings.getD Settings.empty) st.wishes S.id body.deviceId
      (jsTrim (orEmpty body.name)) = some limit := by
  unfold submitWish at h
  split at h
  · simp at h
  · split at h
    · simp at h
    · rename_i S _
      split at h
      · simp at h
      · dsimp only at h
        split at h
        · simp at h
        · split at h
          · rename_i lim hq
            simp only [Response.fail.injEq, Message.quotaExceeded.injEq] at h
            exact ⟨S, by rw [hq, h.2]⟩
          · simp at h

/-- C20. In a state in which every stored wish name is non-empty after
trimming, and in every state that any requests lead to from it, a submission
without device id and with an absent or blank name is never answered with the
quota message; sent with title and artist to an active session that does not
require a name it is accepted, whatever the limit of the session and however
many such wishes the ledger holds.  (The built-in `toLowerCase` maps
only the empty string to the empty string.) -/
theorem anonymous_escapes_quota (js : Builtins)
    (hlower : ∀ s, js.toLowerCase s = js.toLowerCase "" → s = "") (st : State)
    (hnames : NamesNonBlank st) (reqs : List Request) :
    NamesNonBlank (handleAll js reqs st).2 ∧
    (∀ (now : Int) (nowIso : String) (body : WishInput), IsAnonymous body →
      ∀ (code : Nat) (limit : JsNum),
        (submitWish js now nowIso body (handleAll js reqs st).2).1 ≠
          .fail code (.quotaExceeded limit)) ∧
    (∀ (S : Session) (stg : Settings) (now : Int) (nowIso : String) (body : WishInput),
      IsSessionWithId (handleAll js reqs st).2.sessions S.id S → S.id ≠ "" →
      S.active = some true → S.settings = some stg → stg.requireName = some false →
      IsAnonymous body → body.sessionId = some S.id →
      truthyStr body.title = true → truthyStr body.artist = true →
      submitWish js now nowIso body (handleAll js reqs st).2 =
        (.ok (.wish (newWish now nowIso body S (jsTrim (orEmpty body.name)))),
          { (handleAll js reqs st).2 with wishes := (handleAll js reqs st).2.wishes ++
              [newWish now nowIso body S (jsTrim (orEmpty body.name))] })) := by
  have hnames2 := handleAll_namesNonBlank js reqs st hnames
  refine ⟨hnames2, ?_, ?_⟩
  · intro now nowIso body hanon code limit hfail
    obtain ⟨S, hq⟩ := submitWish_quota_inv js now nowIso body _ code limit hfail
    rw [quotaReached_of_count_zero js _ _ _ _ _
      (existingCount_anonymous js hlower _ hnames2 S.id body hanon)] at hq
    cases hq
  · intro S stg now nowIso body hS hid hactive hstg hreq hanon hsid htitle hartist
    have hfind : findSession (handleAll js reqs st).2 body.sessionId = some S := by
      rw [hsid]
      exact (findSession_eq_some_iff _ S.id S).mpr hS
    rw [submitWish_past_guards js now nowIso body _ S htitle hartist
      (by rw [hsid]; exact (truthyStr_some_iff S.id).mpr hid) hfind hactive
      (by
        intro h
        rw [hstg, Option.getD_some, hreq] at h
        simp [truthyFlag] at h)]
    rw [quotaReached_of_count_zero js _ _ _ _ _
      (existingCount_anonymous js hlower _ hnames2 S.id body hanon)]

theorem asciiBuiltins_toLowerCase_empty (s : String)
    (h : asciiBuiltins.toLowerCase s = asciiBuiltins.toLowerCase "") : s = "" := by
  have h1 := congrArg String.data h
  simp only [asciiBuiltins] at h1
  have h2 : s.data = [] := by
    simpa using h1
  exact String.ext h2

/-- C20, at the example session with limit 1: after two accepted submissions
without name and device id, a third one is accepted as well. -/
theorem anonymous_escapes_quota_witness :
    submitWish asciiBuiltins 7 "t7" anonymousWish
        (handleAll asciiBuiltins
          (submissions [(5, "t5", anonymousWish), (6, "t6", anonymousWish)]) demoState).2 =
      (.ok (.wish (newWish 7 "t7" anonymousWish demoSession
          (jsTrim (orEmpty anonymousWish.name)))),
        { (handleAll asciiBuiltins
            (submissions [(5, "t5", anonymousWish), (6, "t6", anonymousWish)]) demoState).2 with
          wishes := (handleAll asciiBuiltins
            (submissions [(5, "t5", anonymousWish), (6, "t6", anonymousWish)])
              demoState).2.wishes ++
            [newWish 7 "t7" anonymousWish demoSession (jsTrim (orEmpty anonymousWish.name))] }) :=
  (anonymous_escapes_quota asciiBuiltins asciiBuiltins_toLowerCase_empty demoState
    (by intro w hw; simp [demoState] at hw)
    (submissions [(5, "t5", anonymousWish), (6, "t6", anonymousWish)])).2.2
    demoSession demoSettings 7 "t7" anonymousWish
    ⟨rfl, [], [], by decide, by simp⟩ (by decide) rfl rfl rfl
    ⟨rfl, by decide⟩ rfl rfl rfl

end Wishboard
